import Mathlib

/-!
# UCloud database resources: instance and parameter group handlers

A shallow embedding of `ucloud/resource_ucloud_db_instance.go` and
`ucloud/resource_ucloud_db_param_group.go`.

* Remote operations are recorded, in the order they are issued, in a trace of `Call`s.
  What the remote service answers is given by a `Backend`, which may depend on
  everything issued before.
* A handler takes the resource data and returns an `Outcome`: the Go `error`
  it returns (`none` for `nil`), the resource data as it was left, and the trace.
* Go `int` is `Int`; the one product the handlers compute is wrapped to 64 bits.
-/

namespace UCloud

/-! ## Go standard library -/

/-- Two's complement wrap of a Go `int` (64 bits). -/
def wrapInt (x : Int) : Int := (x + 2 ^ 63) % 2 ^ 64 - 2 ^ 63

/-- Pieces of a character list between occurrences of `sep`. -/
def splitChars (sep : Char) : List Char → List (List Char)
  | [] => [[]]
  | c :: cs =>
    if c = sep then [] :: splitChars sep cs
    else
      match splitChars sep cs with
      | [] => [[c]]
      | p :: ps => (c :: p) :: ps

/-- Go `strings.Split(s, sep)` for a one-character separator. -/
def stringsSplit (s : String) (sep : Char) : List String :=
  (splitChars sep s.data).map String.mk

/-- Concatenation of the pieces with `sep` between neighbours. -/
def joinChars (sep : List Char) : List (List Char) → List Char
  | [] => []
  | [x] => x
  | x :: y :: rest => x ++ sep ++ joinChars sep (y :: rest)

/-- Go `strings.Join(elems, sep)`. -/
def stringsJoin (elems : List String) (sep : String) : String :=
  String.mk (joinChars sep.data (elems.map String.data))

/-- Value of a run of decimal digits, `none` when a character is not a digit. -/
def digitsValue : List Char → Nat → Option Nat
  | [], acc => some acc
  | c :: cs, acc =>
    if c.isDigit then digitsValue cs (acc * 10 + (c.toNat - 48)) else none

/-- Unsigned part of `strconv.Atoi`: at least one digit, digits only. -/
def atoiDigits (cs : List Char) : Option Nat :=
  if cs = [] then none else digitsValue cs 0

/-- Go `strconv.Atoi`: optional sign, decimal digits, range of a 64-bit `int`;
`none` stands for the returned error. -/
def strconvAtoi (s : String) : Option Int :=
  match s.data with
  | '-' :: cs =>
    match atoiDigits cs with
    | some n => if n ≤ 2 ^ 63 then some (-(n : Int)) else none
    | none => none
  | '+' :: cs =>
    match atoiDigits cs with
    | some n => if n < 2 ^ 63 then some (n : Int) else none
    | none => none
  | cs =>
    match atoiDigits cs with
    | some n => if n < 2 ^ 63 then some (n : Int) else none
    | none => none

/-! ## Data model -/

/-- The parsed instance type (`dbInstanceType`); `Typ` is the Go field `Type`. -/
structure dbInstanceType where
  Engine : String
  Typ : String
  Memory : Int
  deriving DecidableEq, Repr

/-- The instance as `describeDBInstanceById` returns it (`UDBInstanceSet`). -/
structure DBInstance where
  Name : String := ""
  DBTypeId : String := ""
  ParamGroupId : Int := 0
  Port : Int := 0
  State : String := ""
  ChargeType : String := ""
  DiskSpace : Int := 0
  BackupZone : String := ""
  Zone : String := ""
  BackupCount : Int := 0
  BackupBeginTime : Int := 0
  BackupDate : String := ""
  BackupBlacklist : String := ""
  Tag : String := ""
  CreateTime : Int := 0
  ExpiredTime : Int := 0
  ModifyTime : Int := 0
  MemoryLimit : Int := 0
  InstanceMode : String := ""
  deriving DecidableEq, Repr

/-- The resource data `d` of the instance resource: identifier, the flags the
framework keeps, and one field per schema attribute (the configured value).
`changed` lists the attributes for which `d.HasChange` reports true and
`old_instance_type` is the old value `d.GetChange("instance_type")` returns. -/
structure ResourceData where
  id : String := ""
  isNewResource : Bool := false
  partialOn : Bool := false
  partialKeys : List String := []
  changed : List String := []
  old_instance_type : String := ""
  availability_zone : String := ""
  standby_zone : String := ""
  password : String := ""
  engine : String := ""
  engine_version : String := ""
  name : String := ""
  instance_storage : Int := 0
  parameter_group_id : String := ""
  instance_type : String := ""
  port : Int := 0
  instance_charge_type : String := "Month"
  instance_duration : Int := 1
  vpc_id : String := ""
  subnet_id : String := ""
  backup_count : Int := 7
  backup_begin_time : Int := 1
  backup_date : String := ""
  backup_id : String := ""
  backup_black_list : List String := []
  tag : String := ""
  status : String := ""
  create_time : String := ""
  expire_time : String := ""
  modify_time : String := ""
  deriving DecidableEq, Repr

/-- Go `d.HasChange(key)`. -/
def ResourceData.HasChange (d : ResourceData) (key : String) : Bool :=
  decide (key ∈ d.changed)

/-- Go `d.SetPartial(key)`. -/
def ResourceData.SetPartial (d : ResourceData) (key : String) : ResourceData :=
  { d with partialKeys := d.partialKeys ++ [key] }

/-- Request of `CreateUDBInstance`; an unset optional field is `none`. -/
structure CreateUDBInstanceRequest where
  Name : String
  AdminPassword : String
  Zone : String
  DiskSpace : Int
  ChargeType : String
  Quantity : Int
  AdminUser : String
  InstanceType : String
  MemoryLimit : Int
  InstanceMode : String
  DBTypeId : String
  Tag : Option String
  Port : Option Int
  BackupZone : Option String
  BackupCount : Option Int
  BackupId : Option Int
  VPCId : Option String
  SubnetId : Option String
  ParamGroupId : Int
  deriving DecidableEq, Repr

/-- Request of `ResizeUDBInstance`. -/
structure ResizeUDBInstanceRequest where
  DBId : String
  MemoryLimit : Option Int
  DiskSpace : Option Int
  deriving DecidableEq, Repr

/-- Request of `UpdateUDBInstanceBackupStrategy`. -/
structure UpdateUDBInstanceBackupStrategyRequest where
  DBId : String
  BackupDate : Option String
  BackupTime : Option Int
  deriving DecidableEq, Repr

/-- Request of `CreateUDBParamGroup`. -/
structure CreateUDBParamGroupRequest where
  GroupName : String
  Zone : String
  DBTypeId : String
  SrcGroupId : Int
  Description : Option String
  RegionFlag : Option Bool
  deriving DecidableEq, Repr

/-- Request of `UploadUDBParamGroup`. -/
structure UploadUDBParamGroupRequest where
  DBTypeId : String
  GroupName : String
  Description : Option String
  Content : String
  RegionFlag : Option Bool
  deriving DecidableEq, Repr

/-- A remote operation issued by a handler. `WaitForState` is one
`dbWaitForState(id, target).WaitForState()`; the two describe calls are the
client helpers `describeDBInstanceById` and `describeDBParamGroupById`. -/
inductive Call where
  | CreateUDBInstance (req : CreateUDBInstanceRequest)
  | ModifyUDBInstanceName (dbId name : String)
  | ModifyUDBInstancePassword (dbId password : String)
  | DescribeUDBInstance (dbId : String)
  | StopUDBInstance (dbId zone : String)
  | ResizeUDBInstance (req : ResizeUDBInstanceRequest)
  | StartUDBInstance (dbId zone : String)
  | ChangeUDBParamGroup (dbId groupId : String)
  | RestartUDBInstance (dbId : String)
  | UpdateUDBInstanceBackupStrategy (req : UpdateUDBInstanceBackupStrategyRequest)
  | EditUDBBackupBlacklist (dbId blacklist : String)
  | DeleteUDBInstance (dbId : String)
  | WaitForState (dbId : String) (target : List String)
  | DescribeUDBParamGroup (groupId : String)
  | CreateUDBParamGroup (req : CreateUDBParamGroupRequest)
  | UploadUDBParamGroup (req : UploadUDBParamGroupRequest)
  deriving DecidableEq, Repr

/-- How a remote operation ends: success, an error for which
`isNotFoundError` holds, or any other error. -/
inductive Reply where
  | ok
  | notFound
  | failed
  deriving DecidableEq, Repr

/-- One member of a parameter group (`UDBParamMemberSet`). -/
structure ParamMember where
  Key : String
  Value : String
  deriving DecidableEq, Repr

/-- The parameter group as `describeDBParamGroupById` returns it. -/
structure ParamGroup where
  GroupName : String := ""
  DBTypeId : String := ""
  Description : String := ""
  ParamMember : List ParamMember := []
  deriving DecidableEq, Repr

/-- The remote service. Each answer may depend on the calls issued before. -/
structure Backend where
  reply : List Call → Call → Reply
  createDBId : List Call → String
  describe : List Call → DBInstance
  describeParamGroup : List Call → ParamGroup
  newGroupId : List Call → Int

/-- Helpers of the package that the handlers call and whose source is not
part of the files embedded here; they are parameters of the handlers.
`mustConvert` and `mustUnconvert` are the two directions of `dbMap`
(`none`: the value is not in the table). The handlers skip the error of the
parser, the schema having validated the string, so the parser is a total
function here. Go does not fix the order in which `range` visits a map:
`mapRange` is that order. -/
structure Helpers where
  parseDBInstanceType : String → dbInstanceType
  mustConvert : String → Option String
  mustUnconvert : String → Option String
  timestampToString : Int → String
  base64Encode : String → String
  mapRange : List (String × String) → List (String × String)

/-- Errors the handlers return, one constructor per message. -/
inductive Err where
  | createEngineMismatch (typeEngine engine : String)
  | createHAPostgresql
  | createBasicMysql
  | storageLimit500
  | storageLimit1000
  | storageLimit2000
  | engineVersionNotSupported
  | atoiFailed (s : String)
  | createFailed
  | createWaitFailed
  | updateEngineMismatch (typeEngine engine : String)
  | updateTypeNotSupported
  | updateCallFailed (op : String)
  | updateWaitFailed (what : String)
  | readDescribeFailed
  | unknownMode (mode : String)
  | indexOutOfRange
  | pgDescribeFailed
  | pgSrcGroupInvalid (want got : String)
  | pgInvalidKey (key : String)
  | pgCreateFailed
  | pgUploadFailed
  | pgReadDescribeFailed
  deriving DecidableEq, Repr

/-- The state a handler works on: the resource data and the calls issued so far. -/
structure World where
  d : ResourceData
  trace : List Call
  deriving DecidableEq, Repr

/-- Append a call to the trace. -/
def World.issue (w : World) (c : Call) : World :=
  { w with trace := w.trace ++ [c] }

/-- What a handler returns: the Go error (`none` is `nil`) and the final state. -/
structure Outcome where
  err : Option Err
  d : ResourceData
  trace : List Call
  deriving DecidableEq, Repr

/-- Control after a block of statements: fall through to the next statement,
or the function has returned. -/
inductive Flow where
  | next (w : World)
  | ret (e : Option Err) (w : World)
  deriving DecidableEq, Repr

/-- Sequencing of blocks: a return ends the function. -/
def Flow.andThen (f : Flow) (k : World → Flow) : Flow :=
  match f with
  | .next w => k w
  | .ret e w => .ret e w

/-- End of a function body: the tail call `last` runs when nothing returned before. -/
def Flow.finish (f : Flow) (last : World → Outcome) : Outcome :=
  match f with
  | .next w => last w
  | .ret e w => { err := e, d := w.d, trace := w.trace }

/-- One remote call with the usual `if err != nil { return ... }` after it:
the call is recorded, and a reply other than success returns `e`. -/
def Backend.run (b : Backend) (c : Call) (e : Err) (w : World) : Flow :=
  if b.reply w.trace c = Reply.ok then .next (w.issue c)
  else .ret (some e) (w.issue c)

/-! ## resource_ucloud_db_instance.go -/

/-- Modelled from the spec: `checkStringIn` is not among the embedded files; it
returns an error exactly when the value is not one of the choices. The result
here is whether the check passes. -/
def checkStringIn (val : String) (choices : List String) : Bool :=
  decide (val ∈ choices)

/-- Lines 187-197 of `resourceUCloudDBInstanceCreate`: validation of the
parsed instance type against the declared engine. -/
def createTypeValidation (engine : String) (dbType : dbInstanceType) : Option Err :=
  if dbType.Engine ≠ engine then
    some (.createEngineMismatch dbType.Engine engine)
  else if dbType.Engine = "postgresql" ∧ dbType.Typ = "ha" then
    some .createHAPostgresql
  else if dbType.Engine = "mysql" ∧ dbType.Typ = "basic" then
    some .createBasicMysql
  else none

/-- Lines 207-217: the three storage checks, on `memory` as line 206 computes it. -/
def createStorageCheck (memory instanceStorage : Int) : Option Err :=
  if memory ≤ 8 ∧ instanceStorage > 500 then some .storageLimit500
  else if memory ≤ 24 ∧ instanceStorage > 1000 then some .storageLimit1000
  else if memory = 32 ∧ instanceStorage > 2000 then some .storageLimit2000
  else none

/-- Lines 225-233: the engine version must be one the engine family supports. -/
def createVersionCheck (engine engineVersion : String) : Option Err :=
  if engine = "mysql" ∨ engine = "percona" then
    if checkStringIn engineVersion ["5.5", "5.6", "5.7"] then none
    else some .engineVersionNotSupported
  else
    if checkStringIn engineVersion ["9.4", "9.6"] then none
    else some .engineVersionNotSupported

/-- Lines 240-249: the port of the create request. `d.GetOk("port")` is ok
when the value is not zero. -/
def createPort (engine : String) (port : Int) : Option Int :=
  if port ≠ 0 then some port
  else
    let p : Option Int := if engine = "mysql" ∨ engine = "percona" then some 3306 else none
    if engine = "postgresql" then some 5432 else p

/-- Go `d.GetOk` on a string attribute: the value when it is not empty. -/
def getOkString (v : String) : Option String :=
  if v ≠ "" then some v else none

/-- Lines 184-279 of `resourceUCloudDBInstanceCreate`: everything before the
remote call. The result is the request, or the error the function returns. -/
def buildCreateRequest (h : Helpers) (d : ResourceData) :
    Except Err CreateUDBInstanceRequest :=
  let engine := d.engine
  let dbType := h.parseDBInstanceType d.instance_type
  match createTypeValidation engine dbType with
  | some e => .error e
  | none =>
    let zone := d.availability_zone
    let instanceStorage := d.instance_storage
    let memory := wrapInt (dbType.Memory * 1000)
    match createStorageCheck memory instanceStorage with
    | some e => .error e
    | none =>
      match h.mustConvert dbType.Typ with
      | none => .error (.unknownMode dbType.Typ)
      | some instanceMode =>
        let engineVersion := d.engine_version
        match createVersionCheck engine engineVersion with
        | some e => .error e
        | none =>
          let backupIdStr := getOkString d.backup_id
          match backupIdStr.map strconvAtoi with
          | some none => .error (.atoiFailed d.backup_id)
          | backupId =>
            match strconvAtoi d.parameter_group_id with
            | none => .error (.atoiFailed d.parameter_group_id)
            | some pgId =>
              .ok {
                Name := d.name
                AdminPassword := d.password
                Zone := zone
                DiskSpace := instanceStorage
                ChargeType := d.instance_charge_type
                Quantity := d.instance_duration
                AdminUser := "root"
                InstanceType := "SATA_SSD"
                MemoryLimit := memory
                InstanceMode := instanceMode
                DBTypeId := stringsJoin [engine, engineVersion] "-"
                Tag := getOkString d.tag
                Port := createPort engine d.port
                BackupZone :=
                  if d.standby_zone ≠ "" ∧ d.standby_zone ≠ zone then some d.standby_zone
                  else none
                BackupCount := if d.backup_count ≠ 0 then some d.backup_count else none
                BackupId := backupId.join
                VPCId := getOkString d.vpc_id
                SubnetId := getOkString d.subnet_id
                ParamGroupId := pgId }

/-- Go `resourceUCloudDBInstanceRead`. -/
def resourceUCloudDBInstanceRead (h : Helpers) (b : Backend) (w : World) : Outcome :=
  let c := Call.DescribeUDBInstance w.d.id
  let w1 := w.issue c
  match b.reply w.trace c with
  | .notFound => { err := none, d := { w1.d with id := "" }, trace := w1.trace }
  | .failed => { err := some .readDescribeFailed, d := w1.d, trace := w1.trace }
  | .ok =>
    let db := b.describe w.trace
    match stringsSplit db.DBTypeId '-' with
    | a0 :: a1 :: _ =>
      match h.mustUnconvert db.InstanceMode with
      | none => { err := some (.unknownMode db.InstanceMode), d := w1.d, trace := w1.trace }
      | some typ =>
        let memory := Int.tdiv db.MemoryLimit 1000
        { err := none
          d := { w1.d with
            name := db.Name
            engine := a0
            engine_version := a1
            parameter_group_id := toString db.ParamGroupId
            port := db.Port
            status := db.State
            instance_charge_type := db.ChargeType
            instance_storage := db.DiskSpace
            standby_zone := db.BackupZone
            availability_zone := db.Zone
            backup_count := db.BackupCount
            backup_begin_time := db.BackupBeginTime
            backup_date := db.BackupDate
            backup_black_list := stringsSplit db.BackupBlacklist ';'
            tag := db.Tag
            create_time := h.timestampToString db.CreateTime
            expire_time := h.timestampToString db.ExpiredTime
            modify_time := h.timestampToString db.ModifyTime
            instance_type := a0 ++ "-" ++ typ ++ "-" ++ toString memory }
          trace := w1.trace }
    | _ => { err := some .indexOutOfRange, d := w1.d, trace := w1.trace }

/-- Lines 304-313 of `resourceUCloudDBInstanceUpdate`: the rename. -/
def updateName (b : Backend) (w : World) : Flow :=
  if w.d.HasChange "name" ∧ ¬ w.d.isNewResource then
    (b.run (.ModifyUDBInstanceName w.d.id w.d.name)
      (.updateCallFailed "ModifyUDBInstanceName") w).andThen fun w1 =>
    .next { w1 with d := w1.d.SetPartial "name" }
  else .next w

/-- Lines 315-324: the password change. -/
def updatePassword (b : Backend) (w : World) : Flow :=
  if w.d.HasChange "password" ∧ ¬ w.d.isNewResource then
    (b.run (.ModifyUDBInstancePassword w.d.id w.d.password)
      (.updateCallFailed "ModifyUDBInstancePassword") w).andThen fun w1 =>
    .next { w1 with d := w1.d.SetPartial "password" }
  else .next w

/-- Lines 326-353: the resize request and `isSizeChanged`, or the error the
function returns from the instance type block. -/
def updateSizeRequest (h : Helpers) (d : ResourceData) :
    Except Err (Bool × ResizeUDBInstanceRequest) :=
  let sizeReq : ResizeUDBInstanceRequest :=
    { DBId := d.id, MemoryLimit := none, DiskSpace := none }
  let storage (p : Bool × ResizeUDBInstanceRequest) : Bool × ResizeUDBInstanceRequest :=
    if d.HasChange "instance_storage" ∧ ¬ d.isNewResource then
      (true, { p.2 with DiskSpace := some d.instance_storage })
    else p
  if d.HasChange "instance_type" ∧ ¬ d.isNewResource then
    let engine := d.engine
    let oldType := h.parseDBInstanceType d.old_instance_type
    let newType := h.parseDBInstanceType d.instance_type
    if newType.Engine ≠ engine then
      .error (.updateEngineMismatch newType.Engine engine)
    else if newType.Typ ≠ oldType.Typ then
      .error .updateTypeNotSupported
    else
      .ok (storage (true, { sizeReq with MemoryLimit := some (wrapInt (newType.Memory * 1000)) }))
  else .ok (storage (false, sizeReq))

/-- Lines 367-383: stop the instance and wait, unless it is already shut off. -/
def resizeStop (b : Backend) (db : DBInstance) (w : World) : Flow :=
  if db.State ≠ "Shutoff" then
    (b.run (.StopUDBInstance w.d.id w.d.availability_zone)
      (.updateCallFailed "StopUDBInstance") w).andThen fun w1 =>
    b.run (.WaitForState w1.d.id ["Shutoff"]) (.updateWaitFailed "stop") w1
  else .next w

/-- Lines 399-417: start the instance again and wait, when it was running. -/
def resizeStart (b : Backend) (db : DBInstance) (w : World) : Flow :=
  if db.State = "Running" then
    (b.run (.StartUDBInstance w.d.id w.d.availability_zone)
      (.updateCallFailed "StartUDBInstance") w).andThen fun w1 =>
    b.run (.WaitForState w1.d.id ["Running"]) (.updateWaitFailed "start") w1
  else .next w

/-- Lines 396-397 and 431-432: the two attributes of a resize are recorded. -/
def resizeRecorded (w : World) : World :=
  { w with d := (w.d.SetPartial "instance_storage").SetPartial "instance_type" }

/-- Lines 355-434: the resize flow, entered when `isSizeChanged` holds. -/
def resizeFlow (b : Backend) (sizeReq : ResizeUDBInstanceRequest) (w : World) : Flow :=
  let c := Call.DescribeUDBInstance w.d.id
  let w1 := w.issue c
  match b.reply w.trace c with
  | .notFound => .ret none { w1 with d := { w1.d with id := "" } }
  | .failed => .ret (some (.updateCallFailed "DescribeUDBInstance")) w1
  | .ok =>
    let db := b.describe w.trace
    if db.InstanceMode = "Normal" then
      (resizeStop b db w1).andThen fun w2 =>
      (b.run (.ResizeUDBInstance sizeReq) (.updateCallFailed "ResizeUDBInstance") w2).andThen
        fun w3 =>
      (b.run (.WaitForState w3.d.id ["Shutoff"]) (.updateWaitFailed "resize") w3).andThen
        fun w4 =>
      resizeStart b db (resizeRecorded w4)
    else
      (b.run (.ResizeUDBInstance sizeReq) (.updateCallFailed "ResizeUDBInstance") w1).andThen
        fun w3 =>
      (b.run (.WaitForState w3.d.id ["Running", "Shutoff"]) (.updateWaitFailed "resize")
        w3).andThen fun w4 =>
      .next (resizeRecorded w4)

/-- Lines 326-434: the instance type and storage blocks, then the resize flow. -/
def updateSize (h : Helpers) (b : Backend) (w : World) : Flow :=
  match updateSizeRequest h w.d with
  | .error e => .ret (some e) w
  | .ok (isSizeChanged, sizeReq) =>
    if isSizeChanged then resizeFlow b sizeReq w else .next w

/-- Lines 437-458: change of the parameter group, restart and wait. -/
def updateParameterGroup (b : Backend) (w : World) : Flow :=
  if w.d.HasChange "parameter_group_id" ∧ ¬ w.d.isNewResource then
    (b.run (.ChangeUDBParamGroup w.d.id w.d.parameter_group_id)
      (.updateCallFailed "ChangeUDBParamGroup") w).andThen fun w1 =>
    (b.run (.RestartUDBInstance w1.d.id) (.updateCallFailed "RestartUDBInstance") w1).andThen
      fun w2 =>
    (b.run (.WaitForState w2.d.id ["Running", "Shutoff"])
      (.updateWaitFailed "change parameter group id") w2).andThen fun w3 =>
    .next { w3 with d := w3.d.SetPartial "parameter_group_id" }
  else .next w

/-- Lines 460-481: the backup strategy. -/
def updateBackupStrategy (b : Backend) (w : World) : Flow :=
  let buReq : UpdateUDBInstanceBackupStrategyRequest :=
    { DBId := w.d.id
      BackupDate := if w.d.HasChange "backup_date" then some w.d.backup_date else none
      BackupTime :=
        if w.d.HasChange "backup_begin_time" then some w.d.backup_begin_time else none }
  if w.d.HasChange "backup_date" ∨ w.d.HasChange "backup_begin_time" then
    (b.run (.UpdateUDBInstanceBackupStrategy buReq)
      (.updateCallFailed "UpdateUDBInstanceBackupStrategy") w).andThen fun w1 =>
    .next { w1 with d := (w1.d.SetPartial "backup_date").SetPartial "backup_begin_time" }
  else .next w

/-- Line 484: the blacklist string sent to the service. `schema.Set.List()`
gives the elements in some order, here the order of the list. -/
def blackListString (backup_black_list : List String) : String :=
  stringsJoin backup_black_list ";"

/-- Lines 483-494: the backup blacklist. -/
def updateBlackList (b : Backend) (w : World) : Flow :=
  if w.d.HasChange "backup_black_list" then
    (b.run (.EditUDBBackupBlacklist w.d.id (blackListString w.d.backup_black_list))
      (.updateCallFailed "EditUDBBackupBlacklist") w).andThen fun w1 =>
    .next { w1 with d := w1.d.SetPartial "backup_black_list" }
  else .next w

/-- Lines 302-496 of `resourceUCloudDBInstanceUpdate`: the body before the
final read. -/
def updateBody (h : Helpers) (b : Backend) (w : World) : Flow :=
  (updateName b { w with d := { w.d with partialOn := true } }).andThen fun w1 =>
  (updatePassword b w1).andThen fun w2 =>
  (updateSize h b w2).andThen fun w3 =>
  (updateParameterGroup b w3).andThen fun w4 =>
  (updateBackupStrategy b w4).andThen fun w5 =>
  updateBlackList b w5

/-- Go `resourceUCloudDBInstanceUpdate`. -/
def resourceUCloudDBInstanceUpdate (h : Helpers) (b : Backend) (w : World) : Outcome :=
  (updateBody h b w).finish fun w1 =>
    resourceUCloudDBInstanceRead h b { w1 with d := { w1.d with partialOn := false } }

/-- Lines 281-295 of `resourceUCloudDBInstanceCreate`: the create call, the
wait for `Running`, and the update that ends the function. -/
def createRemote (h : Helpers) (b : Backend) (req : CreateUDBInstanceRequest)
    (w : World) : Outcome :=
  let c := Call.CreateUDBInstance req
  if b.reply w.trace c = Reply.ok then
    let w1 : World := { d := { w.d with id := b.createDBId w.trace }, trace := w.trace ++ [c] }
    ((b.run (.WaitForState w1.d.id ["Running"]) .createWaitFailed w1).finish
      fun w2 => resourceUCloudDBInstanceUpdate h b w2)
  else { err := some .createFailed, d := w.d, trace := w.trace ++ [c] }

/-- Go `resourceUCloudDBInstanceCreate`. -/
def resourceUCloudDBInstanceCreate (h : Helpers) (b : Backend) (w : World) : Outcome :=
  match buildCreateRequest h w.d with
  | .error e => { err := some e, d := w.d, trace := w.trace }
  | .ok req => createRemote h b req w

/-! ## resource_ucloud_db_param_group.go -/

/-- The resource data `d` of the parameter group resource. `parameter_input`
is the override set as `paramInput.List()` returns it, a pair per element. -/
structure ParamGroupData where
  id : String := ""
  availability_zone : String := ""
  name : String := ""
  description : String := ""
  src_group_id : String := ""
  engine : String := ""
  engine_version : String := ""
  region_flag : Bool := false
  parameter_input : List (String × String) := []
  parameter_output : List (String × String) := []
  deriving DecidableEq, Repr

/-- What a parameter group handler returns. -/
structure ParamGroupOutcome where
  err : Option Err
  d : ParamGroupData
  trace : List Call
  deriving DecidableEq, Repr

/-- Go `m[k]` with the `ok` flag, on a `map[string]string` kept as a list of
entries with distinct keys. -/
def mapGet : List (String × String) → String → Option String
  | [], _ => none
  | (k1, v1) :: rest, k => if k1 = k then some v1 else mapGet rest k

/-- Go `m[k] = v`: the entry of `k` is replaced, or added when there is none. -/
def mapSet : List (String × String) → String → String → List (String × String)
  | [], k, v => [(k, v)]
  | (k1, v1) :: rest, k, v =>
    if k1 = k then (k, v) :: rest else (k1, v1) :: mapSet rest k v

/-- Lines 158-161 of `resourceUCloudDBParamGroupCreate`: the members of the
source group copied into a map. -/
def copyMembers (memberSet : List ParamMember) : List (String × String) :=
  memberSet.foldl (fun member item => mapSet member item.Key item.Value) []

/-- Lines 163-172: each override pair overwrites the value of a key the map
has; a key the map does not have returns the invalid key error. -/
def applyParamInput (member : List (String × String)) :
    List (String × String) → Except Err (List (String × String))
  | [] => .ok member
  | (k, v) :: rest =>
    if (mapGet member k).isSome then applyParamInput (mapSet member k v) rest
    else .error (.pgInvalidKey k)

/-- Lines 156-172: the effective member mapping of the overrides path. -/
def effectiveMember (memberSet : List ParamMember) (paramInput : List (String × String)) :
    Except Err (List (String × String)) :=
  applyParamInput (copyMembers memberSet) paramInput

/-- Lines 174-183: the lines of the upload content. -/
def uploadLines (h : Helpers) (dbTypeId : String) (member : List (String × String)) :
    List String :=
  let content : List String :=
    if dbTypeId = "mysql" ∨ dbTypeId = "percona" then ["[mysqld]"]
    else if dbTypeId = "postgresql" then ["postgresql"]
    else []
  content ++ (h.mapRange member).map fun kv => kv.1 ++ " = " ++ kv.2

/-- Line 185 before the encoding: the text that is base64 encoded. -/
def uploadText (h : Helpers) (dbTypeId : String) (member : List (String × String)) : String :=
  stringsJoin (uploadLines h dbTypeId member) "\n"

/-- Go `resourceUCloudDBParamGroupRead`. -/
def resourceUCloudDBParamGroupRead (b : Backend) (d : ParamGroupData) (trace : List Call) :
    ParamGroupOutcome :=
  let c := Call.DescribeUDBParamGroup d.id
  match b.reply trace c with
  | .notFound => { err := none, d := { d with id := "" }, trace := trace ++ [c] }
  | .failed => { err := some .pgReadDescribeFailed, d := d, trace := trace ++ [c] }
  | .ok =>
    let dbPg := b.describeParamGroup trace
    match stringsSplit dbPg.DBTypeId '-' with
    | a0 :: a1 :: _ =>
      { err := none
        d := { d with
          name := dbPg.GroupName
          engine := a0
          engine_version := a1
          description := dbPg.Description
          parameter_output := dbPg.ParamMember.map fun item => (item.Key, item.Value) }
        trace := trace ++ [c] }
    | _ => { err := some .indexOutOfRange, d := d, trace := trace ++ [c] }

/-- Lines 135-154: the path without overrides. -/
def createFromSource (b : Backend) (d : ParamGroupData) (dbType : String) (srcGroupId : Int)
    (trace : List Call) : ParamGroupOutcome :=
  let req : CreateUDBParamGroupRequest :=
    { GroupName := d.name
      Zone := d.availability_zone
      DBTypeId := dbType
      SrcGroupId := srcGroupId
      Description := getOkString d.description
      RegionFlag := if d.region_flag then some true else none }
  let c := Call.CreateUDBParamGroup req
  if b.reply trace c = Reply.ok then
    resourceUCloudDBParamGroupRead b { d with id := toString (b.newGroupId trace) }
      (trace ++ [c])
  else { err := some .pgCreateFailed, d := d, trace := trace ++ [c] }

/-- Lines 156-203: the path with overrides. -/
def createWithOverrides (h : Helpers) (b : Backend) (d : ParamGroupData) (dbPg : ParamGroup)
    (trace : List Call) : ParamGroupOutcome :=
  match effectiveMember dbPg.ParamMember d.parameter_input with
  | .error e => { err := some e, d := d, trace := trace }
  | .ok member =>
    let contented := h.base64Encode (uploadText h dbPg.DBTypeId member)
    let upReq : UploadUDBParamGroupRequest :=
      { DBTypeId := stringsJoin [d.engine, d.engine_version] "-"
        GroupName := d.name
        Description := getOkString d.description
        Content := contented
        RegionFlag := if d.region_flag then some true else none }
    let c := Call.UploadUDBParamGroup upReq
    if b.reply trace c = Reply.ok then
      resourceUCloudDBParamGroupRead b { d with id := toString (b.newGroupId trace) }
        (trace ++ [c])
    else { err := some .pgUploadFailed, d := d, trace := trace ++ [c] }

/-- Go `resourceUCloudDBParamGroupCreate`. `d.GetOk("parameter_input")` is ok
when the set is not empty. -/
def resourceUCloudDBParamGroupCreate (h : Helpers) (b : Backend) (d : ParamGroupData)
    (trace : List Call) : ParamGroupOutcome :=
  let dbType := stringsJoin [d.engine, d.engine_version] "-"
  match strconvAtoi d.src_group_id with
  | none => { err := some (.atoiFailed d.src_group_id), d := d, trace := trace }
  | some srcGroupId =>
    let c := Call.DescribeUDBParamGroup d.src_group_id
    if b.reply trace c = Reply.ok then
      let dbPg := b.describeParamGroup trace
      if dbPg.DBTypeId ≠ dbType then
        { err := some (.pgSrcGroupInvalid dbType dbPg.DBTypeId), d := d, trace := trace ++ [c] }
      else if d.parameter_input = [] then
        createFromSource b d dbType srcGroupId (trace ++ [c])
      else
        createWithOverrides h b d dbPg (trace ++ [c])
    else { err := some .pgDescribeFailed, d := d, trace := trace ++ [c] }

/-! ## Concrete helpers and backends used at concrete inputs -/

/-- Modelled from the spec: `parseDBInstanceType` is not among the embedded
files. Per the instance type codec it splits the string on the delimiter into
exactly three components, engine, mode and memory tier; anything else is an
error (`none`). -/
def parseDBInstanceType (s : String) : Option dbInstanceType :=
  match stringsSplit s '-' with
  | [engine, mode, memory] =>
    match strconvAtoi memory with
    | some m => some { Engine := engine, Typ := mode, Memory := m }
    | none => none
  | _ => none

/-- Modelled from the spec: the mode table `dbMap` is not among the embedded
files. The codec names the pairs "normal" and "Normal", "ha" and "HA". -/
def dbMapTable : List (String × String) := [("normal", "Normal"), ("ha", "HA")]

/-- Helpers built from the modelled codec; the error of the parser is
skipped as lines 185-186 do, the zero type standing for the absent result.
The encoder is left as the identity, so that the content of an upload call
reads as the text Go encodes, and `range` visits a map in the order of its
entries. -/
def specHelpers : Helpers where
  parseDBInstanceType := fun s =>
    (parseDBInstanceType s).getD { Engine := "", Typ := "", Memory := 0 }
  mustConvert := fun m => mapGet dbMapTable m
  mustUnconvert := fun r => (dbMapTable.find? fun p => p.2 = r).map fun p => p.1
  timestampToString := fun t => toString t
  base64Encode := fun s => s
  mapRange := fun m => m

/-- A backend on which every call succeeds; a describe returns `db`, a
describe of a parameter group returns `pg`. -/
def okBackend (db : DBInstance) (pg : ParamGroup) : Backend where
  reply := fun _ _ => Reply.ok
  createDBId := fun _ => "udb-1"
  describe := fun _ => db
  describeParamGroup := fun _ => pg
  newGroupId := fun _ => 1

/-- A create of a mysql instance of memory tier 8 with 600 GB of storage. -/
def tier8Storage600 : ResourceData :=
  { isNewResource := true, name := "db", engine := "mysql", engine_version := "5.7",
    instance_type := "mysql-ha-8", instance_storage := 600, parameter_group_id := "1" }

/-- A source parameter group of type mysql-5.7 with one member. -/
def mysqlSourceGroup : ParamGroup :=
  { GroupName := "default", DBTypeId := "mysql-5.7",
    ParamMember := [{ Key := "max_connections", Value := "100" }] }

/-- A parameter group cloned from group 1 with one override of a key the source has. -/
def mysqlOverride : ParamGroupData :=
  { name := "pg", src_group_id := "1", engine := "mysql", engine_version := "5.7",
    parameter_input := [("max_connections", "200")] }

/-- The same clone with a second override, of a key the source does not have. -/
def unknownKeyOverride : ParamGroupData :=
  { name := "pg", src_group_id := "1", engine := "mysql", engine_version := "5.7",
    parameter_input := [("max_connections", "200"), ("no_such_key", "1")] }

/-- The value of the last pair with key `k`, if there is one: what a map
holds for `k` after the pairs were assigned in order. -/
def lastValue : List (String × String) → String → Option String
  | [], _ => none
  | (k1, v1) :: rest, k =>
    match lastValue rest k with
    | some v => some v
    | none => if k1 = k then some v1 else none

/-- A create of a postgresql instance in high availability mode. -/
def postgresqlHA : ResourceData :=
  { isNewResource := true, name := "db", engine := "postgresql", engine_version := "9.6",
    instance_type := "postgresql-ha-4", instance_storage := 100, parameter_group_id := "1" }

/-- An update of an existing instance whose type goes from mode normal to mode ha. -/
def modeChange : ResourceData :=
  { id := "udb-1", engine := "mysql", engine_version := "5.7", name := "db",
    changed := ["instance_type"], old_instance_type := "mysql-normal-8",
    instance_type := "mysql-ha-8", instance_storage := 100, parameter_group_id := "1" }

/-- An instance whose stored blacklist is the empty string. -/
def emptyBlacklistInstance : DBInstance :=
  { Name := "db", DBTypeId := "mysql-5.7", InstanceMode := "HA", MemoryLimit := 8000,
    State := "Running", BackupBlacklist := "" }

/-- A backend that reports the instance as not found and answers every
other call with success. -/
def notFoundBackend : Backend where
  reply := fun _ c =>
    match c with
    | .DescribeUDBInstance _ => Reply.notFound
    | _ => Reply.ok
  createDBId := fun _ => "udb-1"
  describe := fun _ => {}
  describeParamGroup := fun _ => {}
  newGroupId := fun _ => 1

/-- An update of an existing instance whose storage size changed. -/
def storageChange : ResourceData :=
  { id := "udb-1", engine := "mysql", engine_version := "5.7", name := "db",
    changed := ["instance_storage"], old_instance_type := "mysql-ha-8",
    instance_type := "mysql-ha-8", instance_storage := 200, parameter_group_id := "1" }

/-- An update of an existing instance that renames it and changes the mode of its type. -/
def renameAndModeChange : ResourceData :=
  { id := "udb-1", engine := "mysql", engine_version := "5.7", name := "db2",
    changed := ["name", "instance_type"], old_instance_type := "mysql-normal-8",
    instance_type := "mysql-ha-8", instance_storage := 100, parameter_group_id := "1" }

/-- An instance in remote mode "Normal" that is running. -/
def normalRunning : DBInstance :=
  { Name := "db", DBTypeId := "mysql-5.7", InstanceMode := "Normal", MemoryLimit := 8000,
    State := "Running" }

/-! ## Vocabulary of the statements -/

/-- A rename or a password change, the calls of lines 304-324. -/
def Call.isRenameOrPassword : Call → Bool
  | .ModifyUDBInstanceName _ _ => true
  | .ModifyUDBInstancePassword _ _ => true
  | _ => false

/-- A resize, a stop or a start of the instance. -/
def Call.isResizeStopStart : Call → Bool
  | .ResizeUDBInstance _ => true
  | .StopUDBInstance _ _ => true
  | .StartUDBInstance _ _ => true
  | _ => false

/-- The validation errors of `resourceUCloudDBInstanceCreate`: engine of the
type differs from the declared engine, unsupported mode, storage ceiling
exceeded, unsupported engine version. -/
def Err.isCreateValidation : Err → Bool
  | .createEngineMismatch _ _ => true
  | .createHAPostgresql => true
  | .createBasicMysql => true
  | .storageLimit500 => true
  | .storageLimit1000 => true
  | .storageLimit2000 => true
  | .engineVersionNotSupported => true
  | _ => false

/-- The validation errors of `resourceUCloudDBInstanceUpdate`: engine of the
new type differs from the declared engine, changed mode. -/
def Err.isUpdateValidation : Err → Bool
  | .updateEngineMismatch _ _ => true
  | .updateTypeNotSupported => true
  | _ => false

/-- The resource data without what `d.Partial` and `d.SetPartial` record. -/
def ResourceData.config (d : ResourceData) : ResourceData :=
  { d with partialOn := false, partialKeys := [] }

/-- Every error a flow may return satisfies `Q`. -/
def Flow.errorsIn (Q : Err → Prop) : Flow → Prop
  | .next _ => True
  | .ret none _ => True
  | .ret (some e) _ => Q e

/-- The trace of `w2` is the trace of `w` followed by calls that satisfy `P`. -/
def World.extendedBy (P : Call → Prop) (w w2 : World) : Prop :=
  ∃ ext, w2.trace = w.trace ++ ext ∧ ∀ c ∈ ext, P c

/-- Lines 302-324 as one flow: `d.Partial(true)`, the rename, the password change. -/
def updateHead (b : Backend) (w : World) : Flow :=
  (updateName b { w with d := { w.d with partialOn := true } }).andThen (updatePassword b)

/-- An error that is no validation error of the create or of the update. -/
def Err.isRemote (e : Err) : Prop :=
  e.isCreateValidation = false ∧ e.isUpdateValidation = false

/-- Lines 436-494 as one flow: parameter group, backup strategy, blacklist. -/
def updateTail (b : Backend) (w : World) : Flow :=
  (updateParameterGroup b w).andThen fun w4 =>
  (updateBackupStrategy b w4).andThen fun w5 =>
  updateBlackList b w5

/-- The calls of lines 304-324 when they succeed: the rename and the password
change of an existing instance, each when its attribute changed. -/
def headCalls (d : ResourceData) : List Call :=
  (if d.HasChange "name" ∧ ¬ d.isNewResource then [Call.ModifyUDBInstanceName d.id d.name]
    else []) ++
  (if d.HasChange "password" ∧ ¬ d.isNewResource then
    [Call.ModifyUDBInstancePassword d.id d.password] else [])

/-- The calls of lines 437-458 when they succeed. -/
def parameterGroupCalls (d : ResourceData) : List Call :=
  if d.HasChange "parameter_group_id" ∧ ¬ d.isNewResource then
    [Call.ChangeUDBParamGroup d.id d.parameter_group_id, Call.RestartUDBInstance d.id,
      Call.WaitForState d.id ["Running", "Shutoff"]]
  else []

/-- The call of lines 460-481 when it succeeds. -/
def backupStrategyCalls (d : ResourceData) : List Call :=
  if d.HasChange "backup_date" ∨ d.HasChange "backup_begin_time" then
    [Call.UpdateUDBInstanceBackupStrategy
      { DBId := d.id
        BackupDate := if d.HasChange "backup_date" then some d.backup_date else none
        BackupTime :=
          if d.HasChange "backup_begin_time" then some d.backup_begin_time else none }]
  else []

/-- The call of lines 483-494 when it succeeds. -/
def blackListCalls (d : ResourceData) : List Call :=
  if d.HasChange "backup_black_list" then
    [Call.EditUDBBackupBlacklist d.id (blackListString d.backup_black_list)]
  else []

/-- The calls of lines 436-498 when they succeed: parameter group, backup
strategy, blacklist, each when its attribute changed, and the describe of
the final read. -/
def tailCalls (d : ResourceData) : List Call :=
  parameterGroupCalls d ++ backupStrategyCalls d ++ blackListCalls d ++
    [Call.DescribeUDBInstance d.id]

/-! ## resourceUCloudDBInstanceDelete -/

/-- Errors of the retried body of `resourceUCloudDBInstanceDelete`, one
constructor per message. -/
inductive DeleteErr where
  | describeFailed
  | stopFailed
  | waitStopFailed
  | deleteFailed
  | describeAfterFailed
  | stillExists
  deriving DecidableEq, Repr

/-- What one run of the function passed to `resource.Retry` returns: `nil`,
`resource.RetryableError(err)` or `resource.NonRetryableError(err)`. -/
inductive RetryResult where
  | done
  | retryable (e : DeleteErr)
  | nonRetryable (e : DeleteErr)
  deriving DecidableEq, Repr

/-- One attempt of the retried body: its result and the trace after it. -/
structure Attempt where
  result : RetryResult
  trace : List Call
  deriving DecidableEq, Repr

/-- Lines 561-572 of `resourceUCloudDBInstanceDelete`: stop the instance and
wait for `Shutoff`, unless the described state is `Shutoff` already. The
result is the trace when the body goes on, or the attempt that returns. -/
def deleteStop (b : Backend) (id : String) (db : DBInstance) (trace : List Call) :
    Except Attempt (List Call) :=
  if db.State ≠ "Shutoff" then
    let stop := Call.StopUDBInstance id ""
    if b.reply trace stop = Reply.ok then
      let wait := Call.WaitForState id ["Shutoff"]
      if b.reply (trace ++ [stop]) wait = Reply.ok then .ok (trace ++ [stop, wait])
      else .error { result := .retryable .waitStopFailed, trace := trace ++ [stop, wait] }
    else .error { result := .retryable .stopFailed, trace := trace ++ [stop] }
  else .ok trace

/-- Lines 574-585: the delete call and the describe after it. -/
def deleteCall (b : Backend) (id : String) (trace : List Call) : Attempt :=
  let del := Call.DeleteUDBInstance id
  if b.reply trace del = Reply.ok then
    let c := Call.DescribeUDBInstance id
    match b.reply (trace ++ [del]) c with
    | .notFound => { result := .done, trace := trace ++ [del, c] }
    | .failed => { result := .nonRetryable .describeAfterFailed, trace := trace ++ [del, c] }
    | .ok => { result := .retryable .stillExists, trace := trace ++ [del, c] }
  else { result := .nonRetryable .deleteFailed, trace := trace ++ [del] }

/-- Lines 552-586: the function passed to `resource.Retry`, run once on the
instance `id` after the calls of `trace`. The stop request of line 549
carries no zone. -/
def deleteAttempt (b : Backend) (id : String) (trace : List Call) : Attempt :=
  let c := Call.DescribeUDBInstance id
  match b.reply trace c with
  | .notFound => { result := .done, trace := trace ++ [c] }
  | .failed => { result := .nonRetryable .describeFailed, trace := trace ++ [c] }
  | .ok =>
    let db := b.describe trace
    match deleteStop b id db (trace ++ [c]) with
    | .error a => a
    | .ok trace2 => deleteCall b id trace2

/-- Go `resource.Retry` around the body: the body runs again after a
retryable result, at most `attempts` times within the deadline of five
minutes; the result of the last run is returned. -/
def retryDelete (b : Backend) (id : String) : Nat → List Call → Attempt
  | 0, trace => deleteAttempt b id trace
  | n + 1, trace =>
    match deleteAttempt b id trace with
    | { result := .retryable _, trace := trace2 } => retryDelete b id n trace2
    | a => a

/-- Go `resourceUCloudDBInstanceDelete`; `attempts` is the number of reruns
the deadline leaves room for. -/
def resourceUCloudDBInstanceDelete (b : Backend) (attempts : Nat) (w : World) : Attempt :=
  retryDelete b w.d.id attempts w.trace

/-! ## resourceUCloudDBParameterHash -/

/-- Lines 279-282 of `resourceUCloudDBParameterHash`: the string written to
the buffer, the key and the value each followed by "-". -/
def parameterHashString (key value : String) : String :=
  (key ++ "-") ++ (value ++ "-")

/-- Go `resourceUCloudDBParameterHash`; `hashcodeString` is `hashcode.String`
of the framework. -/
def resourceUCloudDBParameterHash (hashcodeString : String → Int) (key value : String) : Int :=
  hashcodeString (parameterHashString key value)

/-! ## Vocabulary of the delete attempt -/

/-- The trace before the delete call, when the body reaches it: the describe,
and the stop and the wait when the described state is not `Shutoff`. -/
def beforeDelete (id : String) (db : DBInstance) (trace : List Call) : List Call :=
  if db.State ≠ "Shutoff" then
    trace ++ [.DescribeUDBInstance id, .StopUDBInstance id "", .WaitForState id ["Shutoff"]]
  else trace ++ [.DescribeUDBInstance id]

/-- The stop and the wait for `Shutoff` succeed when they are needed. -/
def stopSucceeds (b : Backend) (id : String) (db : DBInstance) (trace : List Call) : Prop :=
  db.State ≠ "Shutoff" →
    b.reply (trace ++ [.DescribeUDBInstance id]) (.StopUDBInstance id "") = Reply.ok ∧
    b.reply (trace ++ [.DescribeUDBInstance id, .StopUDBInstance id ""])
      (.WaitForState id ["Shutoff"]) = Reply.ok

/-- The reply to the first describe of an attempt. -/
def firstDescribe (b : Backend) (id : String) (trace : List Call) : Reply :=
  b.reply trace (.DescribeUDBInstance id)

/-- The reply to the stop call of an attempt. -/
def stopReply (b : Backend) (id : String) (trace : List Call) : Reply :=
  b.reply (trace ++ [.DescribeUDBInstance id]) (.StopUDBInstance id "")

/-- The reply to the wait for `Shutoff` of an attempt. -/
def waitReply (b : Backend) (id : String) (trace : List Call) : Reply :=
  b.reply (trace ++ [.DescribeUDBInstance id, .StopUDBInstance id ""])
    (.WaitForState id ["Shutoff"])

/-- The reply to the delete call of an attempt. -/
def deleteReply (b : Backend) (id : String) (trace : List Call) : Reply :=
  b.reply (beforeDelete id (b.describe trace) trace) (.DeleteUDBInstance id)

/-- The reply to the describe that follows the delete call. -/
def secondDescribe (b : Backend) (id : String) (trace : List Call) : Reply :=
  b.reply (beforeDelete id (b.describe trace) trace ++ [.DeleteUDBInstance id])
    (.DescribeUDBInstance id)

/-- The body reaches the delete call: the first describe succeeded, and the
stop and the wait succeeded when the described state is not `Shutoff`. -/
def reachesDelete (b : Backend) (id : String) (trace : List Call) : Prop :=
  firstDescribe b id trace = Reply.ok ∧
    ((b.describe trace).State ≠ "Shutoff" →
      stopReply b id trace = Reply.ok ∧ waitReply b id trace = Reply.ok)

/-! ## Vocabulary of the hash string -/

/-- The string holds no "-". -/
def dashFree (s : String) : Prop := '-' ∉ s.data

/-! ## Properties of flows -/

/-- A flow that falls through ends in a state with `N`, a flow that returns
ends in a state with `R`. -/
def Flow.sat (N R : World → Prop) : Flow → Prop
  | .next w => N w
  | .ret _ w => R w

/-- The trace of `w` starts with `trace`. -/
def World.grownFrom (trace : List Call) (w : World) : Prop :=
  ∃ ext, w.trace = trace ++ ext

/-! ## Concrete inputs of the create and the read -/

/-- The request that the create of `tier8Storage600` builds. -/
def tier8Request : CreateUDBInstanceRequest :=
  { Name := "db", AdminPassword := "", Zone := "", DiskSpace := 600,
    ChargeType := "Month", Quantity := 1, AdminUser := "root",
    InstanceType := "SATA_SSD", MemoryLimit := 8000, InstanceMode := "HA",
    DBTypeId := "mysql-5.7", Tag := none, Port := some 3306, BackupZone := none,
    BackupCount := some 7, BackupId := none, VPCId := none, SubnetId := none,
    ParamGroupId := 1 }

/-- The instance that the service reports for `tier8Storage600`: the memory
limit and the mode of `tier8Request`. -/
def tier8Instance : DBInstance :=
  { Name := "db", DBTypeId := "mysql-5.7", InstanceMode := "HA", MemoryLimit := 8000,
    State := "Running", DiskSpace := 600 }

/-- A create of a mysql instance whose memory tier times 1000 is beyond the
range of a 64-bit `int`. -/
def hugeTier : ResourceData :=
  { isNewResource := true, name := "db", engine := "mysql", engine_version := "5.7",
    instance_type := "mysql-ha-9223372036854776", instance_storage := 100,
    parameter_group_id := "1" }

/-- The instance that the service reports for `hugeTier`: the memory limit
the create sent, 9223372036854776 * 1000 wrapped to 64 bits, and the mode. -/
def hugeTierInstance : DBInstance :=
  { Name := "db", DBTypeId := "mysql-5.7", InstanceMode := "HA",
    MemoryLimit := -9223372036854775616, State := "Running", DiskSpace := 100 }

/-! ## Vocabulary of the recorded attributes -/

/-- Where the trace stands in a block of several calls: after a successful
resize, after a successful change of the parameter group, after the
successful restart that follows it, or nowhere. -/
inductive Pending where
  | none
  | resized
  | groupChanged
  | groupRestarted
  deriving DecidableEq, Repr

/-- What the trace read so far tells: the calls seen, the block that is
open, and the attributes whose block was completed with success, in the
order of completion. -/
structure RecordState where
  seen : List Call
  pending : Pending
  keys : List String
  deriving DecidableEq, Repr

/-- One call of the trace, read with the reply the service gave to it: a
successful rename records "name" and a successful password change
"password"; a successful resize followed by a successful wait records
"instance_storage" and "instance_type"; a successful change of the parameter
group followed by a successful restart and a successful wait records
"parameter_group_id"; a successful backup strategy call records
"backup_date" and "backup_begin_time"; a successful blacklist call records
"backup_black_list". -/
def recordStep (b : Backend) (s : RecordState) (c : Call) : RecordState :=
  let ok : Bool := decide (b.reply s.seen c = Reply.ok)
  let seen := s.seen ++ [c]
  match c with
  | .ModifyUDBInstanceName _ _ =>
    { seen := seen, pending := .none, keys := if ok then s.keys ++ ["name"] else s.keys }
  | .ModifyUDBInstancePassword _ _ =>
    { seen := seen, pending := .none, keys := if ok then s.keys ++ ["password"] else s.keys }
  | .ResizeUDBInstance _ =>
    { seen := seen, pending := if ok then .resized else .none, keys := s.keys }
  | .ChangeUDBParamGroup _ _ =>
    { seen := seen, pending := if ok then .groupChanged else .none, keys := s.keys }
  | .RestartUDBInstance _ =>
    { seen := seen
      pending := if ok ∧ s.pending = .groupChanged then .groupRestarted else .none
      keys := s.keys }
  | .WaitForState _ _ =>
    { seen := seen
      pending := .none
      keys :=
        if ok ∧ s.pending = .resized then s.keys ++ ["instance_storage", "instance_type"]
        else if ok ∧ s.pending = .groupRestarted then s.keys ++ ["parameter_group_id"]
        else s.keys }
  | .UpdateUDBInstanceBackupStrategy _ =>
    { seen := seen
      pending := .none
      keys := if ok then s.keys ++ ["backup_date", "backup_begin_time"] else s.keys }
  | .EditUDBBackupBlacklist _ _ =>
    { seen := seen
      pending := .none
      keys := if ok then s.keys ++ ["backup_black_list"] else s.keys }
  | _ => { seen := seen, pending := .none, keys := s.keys }

/-- The trace of a run read call by call, starting from the attributes
`recorded` that were recorded before the run. -/
def recordFold (b : Backend) (recorded : List String) (trace : List Call) : RecordState :=
  trace.foldl (recordStep b) { seen := [], pending := .none, keys := recorded }

/-- The attributes that the trace of a run, with the replies of the service,
shows as applied. -/
def recordedKeys (b : Backend) (recorded : List String) (trace : List Call) : List String :=
  (recordFold b recorded trace).keys

/-- The attributes recorded in `w` are those its trace shows as applied, and
the trace stands at `pending`. -/
def World.tracked (b : Backend) (recorded : List String) (pending : Pending) (w : World) :
    Prop :=
  recordFold b recorded w.trace =
    { seen := w.trace, pending := pending, keys := w.d.partialKeys }

/-- The attributes recorded in `w` are those its trace shows as applied. -/
def World.settled (b : Backend) (recorded : List String) (w : World) : Prop :=
  ∃ pending, w.tracked b recorded pending

/-- A backend on which every wait fails and every other call succeeds; a
describe returns `db`. -/
def waitFailsBackend (db : DBInstance) : Backend where
  reply := fun _ c =>
    match c with
    | .WaitForState _ _ => Reply.failed
    | _ => Reply.ok
  createDBId := fun _ => "udb-1"
  describe := fun _ => db
  describeParamGroup := fun _ => {}
  newGroupId := fun _ => 1

/-! ## Lemmas on the Go map -/

theorem mapGet_mapSet (m : List (String × String)) (k v k2 : String) :
    mapGet (mapSet m k v) k2 = if k = k2 then some v else mapGet m k2 := by
  induction m with
  | nil => simp [mapSet, mapGet]
  | cons p rest ih =>
    obtain ⟨k1, v1⟩ := p
    by_cases h1 : k1 = k
    · subst h1
      by_cases h2 : k1 = k2 <;> simp [mapSet, mapGet, h2]
    · by_cases h2 : k1 = k2
      · subst h2
        have h3 : ¬ (k = k1) := fun h => h1 h.symm
        simp [mapSet, mapGet, h1, h3]
      · simp [mapSet, mapGet, h1, h2, ih]

theorem mapGet_foldl_mapSet (pairs : List (String × String)) (m : List (String × String))
    (k : String) :
    mapGet (pairs.foldl (fun acc p => mapSet acc p.1 p.2) m) k =
      match lastValue pairs k with
      | some v => some v
      | none => mapGet m k := by
  induction pairs generalizing m with
  | nil => simp [lastValue]
  | cons p rest ih =>
    obtain ⟨k1, v1⟩ := p
    simp only [List.foldl_cons, ih, lastValue, mapGet_mapSet]
    cases lastValue rest k with
    | some v => rfl
    | none =>
      by_cases h : k1 = k <;> simp [h]

theorem lastValue_mem (pairs : List (String × String)) (k v : String)
    (h : lastValue pairs k = some v) : (k, v) ∈ pairs := by
  induction pairs with
  | nil => simp [lastValue] at h
  | cons p rest ih =>
    obtain ⟨k1, v1⟩ := p
    simp only [lastValue] at h
    cases hr : lastValue rest k with
    | some v2 =>
      rw [hr] at h
      simp only [Option.some.injEq] at h
      subst h
      exact List.mem_cons_of_mem _ (ih hr)
    | none =>
      rw [hr] at h
      by_cases hk : k1 = k
      · simp [hk] at h
        subst hk; subst h
        exact List.mem_cons_self _ _
      · simp [hk] at h

theorem lastValue_isSome_of_mem (pairs : List (String × String)) (k v : String)
    (h : (k, v) ∈ pairs) : ∃ v2, lastValue pairs k = some v2 := by
  induction pairs with
  | nil => simp at h
  | cons p rest ih =>
    obtain ⟨k1, v1⟩ := p
    simp only [lastValue]
    cases hr : lastValue rest k with
    | some v2 => exact ⟨v2, rfl⟩
    | none =>
      rcases List.mem_cons.mp h with heq | hmem
      · simp only [Prod.mk.injEq] at heq
        simp [heq.1]
      · obtain ⟨v2, hv2⟩ := ih hmem
        rw [hr] at hv2
        cases hv2

theorem lastValue_eq_none (pairs : List (String × String)) (k : String)
    (h : ∀ v, (k, v) ∉ pairs) : lastValue pairs k = none := by
  cases hr : lastValue pairs k with
  | none => rfl
  | some v => exact absurd (lastValue_mem pairs k v hr) (h v)

theorem keys_mapSet_nodup (m : List (String × String)) (k v : String)
    (h : (m.map Prod.fst).Nodup) : ((mapSet m k v).map Prod.fst).Nodup := by
  induction m with
  | nil => simp [mapSet]
  | cons p rest ih =>
    obtain ⟨k1, v1⟩ := p
    simp only [List.map_cons, List.nodup_cons] at h
    by_cases h1 : k1 = k
    · subst h1
      simp only [mapSet, if_true, List.map_cons, List.nodup_cons]
      exact h
    · simp only [mapSet, h1, if_false, List.map_cons, List.nodup_cons]
      refine ⟨?_, ih h.2⟩
      intro hmem
      have : ∀ (m : List (String × String)), k1 ∈ (mapSet m k v).map Prod.fst →
          k1 ∈ m.map Prod.fst := by
        intro m
        induction m with
        | nil =>
          intro hm
          simp [mapSet] at hm
          exact absurd hm h1
        | cons q r ihr =>
          obtain ⟨k3, v3⟩ := q
          intro hm
          by_cases h3 : k3 = k
          · simp only [mapSet, h3, if_true, List.map_cons, List.mem_cons] at hm
            rcases hm with hm | hm
            · exact absurd hm h1
            · simp [hm]
          · simp only [mapSet, h3, if_false, List.map_cons, List.mem_cons] at hm
            rcases hm with hm | hm
            · simp [hm]
            · simp [ihr hm]
      exact h.1 (this rest hmem)

theorem keys_foldl_mapSet_nodup (pairs : List (String × String)) (m : List (String × String))
    (h : (m.map Prod.fst).Nodup) :
    ((pairs.foldl (fun acc p => mapSet acc p.1 p.2) m).map Prod.fst).Nodup := by
  induction pairs generalizing m with
  | nil => simpa using h
  | cons p rest ih => exact ih _ (keys_mapSet_nodup m p.1 p.2 h)

theorem copyMembers_eq (memberSet : List ParamMember) :
    copyMembers memberSet =
      (memberSet.map fun item => (item.Key, item.Value)).foldl
        (fun acc p => mapSet acc p.1 p.2) [] := by
  unfold copyMembers
  rw [List.foldl_map]

theorem applyParamInput_ok (paramInput member : List (String × String))
    (h : ∀ p ∈ paramInput, (mapGet member p.1).isSome) :
    applyParamInput member paramInput =
      .ok (paramInput.foldl (fun acc p => mapSet acc p.1 p.2) member) := by
  induction paramInput generalizing member with
  | nil => simp [applyParamInput]
  | cons p rest ih =>
    obtain ⟨k, v⟩ := p
    have hk : (mapGet member k).isSome := h (k, v) (List.mem_cons_self _ _)
    simp only [applyParamInput, hk, if_true, List.foldl_cons]
    apply ih
    intro q hq
    rw [mapGet_mapSet]
    by_cases hkq : k = q.1
    · simp [hkq]
    · simp only [hkq, if_false]
      exact h q (List.mem_cons_of_mem _ hq)

theorem applyParamInput_invalid (paramInput member : List (String × String))
    (h : ∃ p ∈ paramInput, mapGet member p.1 = none) :
    ∃ k, applyParamInput member paramInput = .error (.pgInvalidKey k) ∧
      mapGet member k = none ∧ k ∈ paramInput.map Prod.fst := by
  induction paramInput generalizing member with
  | nil => simp at h
  | cons p rest ih =>
    obtain ⟨k, v⟩ := p
    cases hk : mapGet member k with
    | none =>
      refine ⟨k, ?_, hk, by simp⟩
      simp [applyParamInput, hk]
    | some v0 =>
      obtain ⟨q, hq, hqn⟩ := h
      rcases List.mem_cons.mp hq with heq | hmem
      · subst heq
        simp [hk] at hqn
      · have hne : ¬ (k = q.1) := by
          intro hkq
          rw [← hkq, hk] at hqn
          cases hqn
        have : mapGet (mapSet member k v) q.1 = none := by
          rw [mapGet_mapSet]; simp [hne, hqn]
        obtain ⟨k2, h1, h2, h3⟩ := ih (mapSet member k v) ⟨q, hmem, this⟩
        refine ⟨k2, ?_, ?_, ?_⟩
        · simp [applyParamInput, hk, h1]
        · rw [mapGet_mapSet] at h2
          by_cases hkk : k = k2
          · simp [hkk] at h2
          · simpa [hkk] using h2
        · simp only [List.map_cons, List.mem_cons]
          exact Or.inr h3

theorem mapGet_copyMembers_isSome (memberSet : List ParamMember) (k : String) :
    (mapGet (copyMembers memberSet) k).isSome ↔ ∃ item ∈ memberSet, item.Key = k := by
  rw [copyMembers_eq, mapGet_foldl_mapSet]
  constructor
  · intro h
    cases hr : lastValue (memberSet.map fun item => (item.Key, item.Value)) k with
    | none => rw [hr] at h; simp [mapGet] at h
    | some v =>
      have := lastValue_mem _ _ _ hr
      simp only [List.mem_map, Prod.mk.injEq] at this
      obtain ⟨item, hi, hk, _⟩ := this
      exact ⟨item, hi, hk⟩
  · rintro ⟨item, hi, hk⟩
    have hmem : (k, item.Value) ∈ memberSet.map fun item => (item.Key, item.Value) := by
      simp only [List.mem_map, Prod.mk.injEq]
      exact ⟨item, hi, hk, rfl⟩
    obtain ⟨v2, hv2⟩ := lastValue_isSome_of_mem _ _ _ hmem
    rw [hv2]; rfl

/-! ## Lemmas on split and join -/

theorem splitChars_no_sep (sep : Char) (x : List Char) (h : sep ∉ x) :
    splitChars sep x = [x] := by
  induction x with
  | nil => rfl
  | cons c cs ih =>
    have hc : ¬ (c = sep) := fun e => h (by simp [e])
    have hcs : sep ∉ cs := fun e => h (List.mem_cons_of_mem _ e)
    simp [splitChars, hc, ih hcs]

theorem splitChars_append (sep : Char) (x t : List Char) (h : sep ∉ x) :
    splitChars sep (x ++ sep :: t) = x :: splitChars sep t := by
  induction x with
  | nil => simp [splitChars]
  | cons c cs ih =>
    have hc : ¬ (c = sep) := fun e => h (by simp [e])
    have hcs : sep ∉ cs := fun e => h (List.mem_cons_of_mem _ e)
    simp [splitChars, hc, ih hcs]

theorem splitChars_joinChars (sep : Char) (xs : List (List Char)) (hne : xs ≠ [])
    (h : ∀ x ∈ xs, sep ∉ x) : splitChars sep (joinChars [sep] xs) = xs := by
  induction xs with
  | nil => exact absurd rfl hne
  | cons x rest ih =>
    cases rest with
    | nil => exact splitChars_no_sep sep x (h x (by simp))
    | cons y rest2 =>
      have hx : sep ∉ x := h x (by simp)
      have ih2 := ih (by simp) (fun z hz => h z (List.mem_cons_of_mem _ hz))
      simp only [joinChars, List.append_assoc, List.singleton_append]
      rw [splitChars_append sep x _ hx, ih2]

/-! ## Lemmas on flows -/

theorem run_ok (b : Backend) (c : Call) (e : Err) (w : World)
    (h : b.reply w.trace c = Reply.ok) : b.run c e w = .next (w.issue c) := by
  unfold Backend.run
  rw [if_pos h]

theorem run_fail (b : Backend) (c : Call) (e : Err) (w : World)
    (h : b.reply w.trace c ≠ Reply.ok) : b.run c e w = .ret (some e) (w.issue c) := by
  unfold Backend.run
  rw [if_neg h]

theorem run_errorsIn (Q : Err → Prop) (b : Backend) (c : Call) (e : Err) (w : World)
    (h : Q e) : (b.run c e w).errorsIn Q := by
  unfold Backend.run
  split
  · trivial
  · exact h

theorem andThen_errorsIn (Q : Err → Prop) (f : Flow) (k : World → Flow)
    (hf : f.errorsIn Q) (hk : ∀ w, f = .next w → (k w).errorsIn Q) :
    (f.andThen k).errorsIn Q := by
  cases f with
  | next w => exact hk w rfl
  | ret e w => exact hf

theorem extendedBy_trans (P : Call → Prop) (w1 w2 w3 : World)
    (h12 : w1.extendedBy P w2) (h23 : w2.extendedBy P w3) : w1.extendedBy P w3 := by
  obtain ⟨e1, h1, p1⟩ := h12
  obtain ⟨e2, h2, p2⟩ := h23
  refine ⟨e1 ++ e2, by rw [h2, h1, List.append_assoc], ?_⟩
  intro c hc
  rcases List.mem_append.mp hc with hc | hc
  · exact p1 c hc
  · exact p2 c hc

theorem extendedBy_issue (P : Call → Prop) (w : World) (c : Call) (h : P c) :
    w.extendedBy P (w.issue c) :=
  ⟨[c], rfl, by simpa using h⟩

theorem extendedBy_same_trace (P : Call → Prop) (w w2 : World) (h : w2.trace = w.trace) :
    w.extendedBy P w2 :=
  ⟨[], by simp [h], by simp⟩

theorem andThen_assoc (f : Flow) (g k : World → Flow) :
    (f.andThen g).andThen k = f.andThen fun w => (g w).andThen k := by
  cases f <;> rfl

/-! ## The attribute blocks of the update -/

theorem updateName_cases (b : Backend) (w : World) :
    updateName b w = .next w ∨
    updateName b w = .next
      ⟨w.d.SetPartial "name", w.trace ++ [.ModifyUDBInstanceName w.d.id w.d.name]⟩ ∨
    updateName b w = .ret (some (.updateCallFailed "ModifyUDBInstanceName"))
      ⟨w.d, w.trace ++ [.ModifyUDBInstanceName w.d.id w.d.name]⟩ := by
  unfold updateName
  by_cases h1 : (w.d.HasChange "name" = true ∧ ¬ w.d.isNewResource = true)
  · rw [if_pos h1]
    by_cases r : b.reply w.trace (.ModifyUDBInstanceName w.d.id w.d.name) = Reply.ok
    · rw [run_ok b _ _ w r]; right; left; rfl
    · rw [run_fail b _ _ w r]; right; right; rfl
  · rw [if_neg h1]; left; rfl

theorem updatePassword_cases (b : Backend) (w : World) :
    updatePassword b w = .next w ∨
    updatePassword b w = .next
      ⟨w.d.SetPartial "password", w.trace ++ [.ModifyUDBInstancePassword w.d.id w.d.password]⟩ ∨
    updatePassword b w = .ret (some (.updateCallFailed "ModifyUDBInstancePassword"))
      ⟨w.d, w.trace ++ [.ModifyUDBInstancePassword w.d.id w.d.password]⟩ := by
  unfold updatePassword
  by_cases h1 : (w.d.HasChange "password" = true ∧ ¬ w.d.isNewResource = true)
  · rw [if_pos h1]
    by_cases r : b.reply w.trace (.ModifyUDBInstancePassword w.d.id w.d.password) = Reply.ok
    · rw [run_ok b _ _ w r]; right; left; rfl
    · rw [run_fail b _ _ w r]; right; right; rfl
  · rw [if_neg h1]; left; rfl

/-- The head of the update either returns the error of a failed call, or
falls through with the configuration as it was; it issues renames and
password changes only. -/
theorem updateHead_cases (b : Backend) (w : World) :
    (∃ op w1, updateHead b w = .ret (some (.updateCallFailed op)) w1 ∧
      w.extendedBy (fun c => c.isRenameOrPassword = true) w1) ∨
    (∃ w1, updateHead b w = .next w1 ∧ w1.d.config = w.d.config ∧
      w.extendedBy (fun c => c.isRenameOrPassword = true) w1) := by
  unfold updateHead
  have hP1 : ∀ (x : World) (i n : String), x.extendedBy (fun c => c.isRenameOrPassword = true)
      ⟨x.d, x.trace ++ [.ModifyUDBInstanceName i n]⟩ := fun x i n =>
    ⟨[_], rfl, by simp [Call.isRenameOrPassword]⟩
  have hP2 : ∀ (x : World) (y : ResourceData) (i n : String),
      x.extendedBy (fun c => c.isRenameOrPassword = true)
      ⟨y, x.trace ++ [.ModifyUDBInstancePassword i n]⟩ := fun x y i n =>
    ⟨[_], rfl, by simp [Call.isRenameOrPassword]⟩
  rcases updateName_cases b { w with d := { w.d with partialOn := true } } with h | h | h
  · rw [h]
    rcases updatePassword_cases b { w with d := { w.d with partialOn := true } } with g | g | g
    · right; exact ⟨_, g, rfl, extendedBy_same_trace _ _ _ rfl⟩
    · right; exact ⟨_, g, rfl, hP2 w _ _ _⟩
    · left; exact ⟨_, _, g, hP2 w _ _ _⟩
  · rw [h]
    rcases updatePassword_cases b
      ⟨({ w.d with partialOn := true } : ResourceData).SetPartial "name",
        w.trace ++ [.ModifyUDBInstanceName w.d.id w.d.name]⟩ with g | g | g
    · right; exact ⟨_, g, rfl, hP1 w _ _⟩
    · right
      exact ⟨_, g, rfl, extendedBy_trans _ w ⟨w.d, w.trace ++ [_]⟩ _ (hP1 w _ _) (hP2 _ _ _ _)⟩
    · left
      exact ⟨_, _, g, extendedBy_trans _ w ⟨w.d, w.trace ++ [_]⟩ _ (hP1 w _ _) (hP2 _ _ _ _)⟩
  · rw [h]
    left; exact ⟨_, _, rfl, hP1 w _ _⟩

theorem updateBody_eq (h : Helpers) (b : Backend) (w : World) :
    updateBody h b w = (updateHead b w).andThen fun w2 =>
      (updateSize h b w2).andThen fun w3 =>
      (updateParameterGroup b w3).andThen fun w4 =>
      (updateBackupStrategy b w4).andThen fun w5 =>
      updateBlackList b w5 := by
  unfold updateBody updateHead
  rw [andThen_assoc]

theorem updateSizeRequest_config (h : Helpers) (d d2 : ResourceData)
    (hc : d2.config = d.config) : updateSizeRequest h d2 = updateSizeRequest h d := by
  have h1 : updateSizeRequest h d2 = updateSizeRequest h d2.config := rfl
  have h2 : updateSizeRequest h d = updateSizeRequest h d.config := rfl
  rw [h1, h2, hc]

theorem resizeStop_errorsIn (b : Backend) (db : DBInstance) (w : World) :
    (resizeStop b db w).errorsIn Err.isRemote := by
  unfold resizeStop
  split
  · apply andThen_errorsIn
    · exact run_errorsIn _ _ _ _ _ ⟨rfl, rfl⟩
    · intro w1 _
      exact run_errorsIn _ _ _ _ _ ⟨rfl, rfl⟩
  · trivial

theorem resizeStart_errorsIn (b : Backend) (db : DBInstance) (w : World) :
    (resizeStart b db w).errorsIn Err.isRemote := by
  unfold resizeStart
  split
  · apply andThen_errorsIn
    · exact run_errorsIn _ _ _ _ _ ⟨rfl, rfl⟩
    · intro w1 _
      exact run_errorsIn _ _ _ _ _ ⟨rfl, rfl⟩
  · trivial

theorem resizeFlow_errorsIn (b : Backend) (sizeReq : ResizeUDBInstanceRequest) (w : World) :
    (resizeFlow b sizeReq w).errorsIn Err.isRemote := by
  unfold resizeFlow
  simp only
  split
  · trivial
  · exact ⟨rfl, rfl⟩
  · split
    · apply andThen_errorsIn
      · exact resizeStop_errorsIn _ _ _
      · intro w2 _
        apply andThen_errorsIn
        · exact run_errorsIn _ _ _ _ _ ⟨rfl, rfl⟩
        · intro w3 _
          apply andThen_errorsIn
          · exact run_errorsIn _ _ _ _ _ ⟨rfl, rfl⟩
          · intro w4 _
            exact resizeStart_errorsIn _ _ _
    · apply andThen_errorsIn
      · exact run_errorsIn _ _ _ _ _ ⟨rfl, rfl⟩
      · intro w3 _
        apply andThen_errorsIn
        · exact run_errorsIn _ _ _ _ _ ⟨rfl, rfl⟩
        · intro w4 _
          trivial

theorem updateTail_errorsIn (b : Backend) (w : World) :
    (updateTail b w).errorsIn Err.isRemote := by
  unfold updateTail
  apply andThen_errorsIn
  · unfold updateParameterGroup
    split
    · apply andThen_errorsIn
      · exact run_errorsIn _ _ _ _ _ ⟨rfl, rfl⟩
      · intro w1 _
        apply andThen_errorsIn
        · exact run_errorsIn _ _ _ _ _ ⟨rfl, rfl⟩
        · intro w2 _
          apply andThen_errorsIn
          · exact run_errorsIn _ _ _ _ _ ⟨rfl, rfl⟩
          · intro w3 _
            trivial
    · trivial
  · intro w4 _
    apply andThen_errorsIn
    · unfold updateBackupStrategy
      simp only
      split
      · apply andThen_errorsIn
        · exact run_errorsIn _ _ _ _ _ ⟨rfl, rfl⟩
        · intro w1 _
          trivial
      · trivial
    · intro w5 _
      unfold updateBlackList
      split
      · apply andThen_errorsIn
        · exact run_errorsIn _ _ _ _ _ ⟨rfl, rfl⟩
        · intro w1 _
          trivial
      · trivial

theorem read_err (h : Helpers) (b : Backend) (w : World) (e : Err)
    (he : (resourceUCloudDBInstanceRead h b w).err = some e) : e.isRemote := by
  unfold resourceUCloudDBInstanceRead at he
  simp only at he
  split at he
  · cases he
  · cases he; exact ⟨rfl, rfl⟩
  · split at he
    · split at he
      · cases he; exact ⟨rfl, rfl⟩
      · cases he
    · cases he; exact ⟨rfl, rfl⟩

theorem finish_err (Q : Err → Prop) (f : Flow) (last : World → Outcome) (e : Err)
    (hf : f.errorsIn Q) (hl : ∀ w, (last w).err = some e → Q e)
    (he : (f.finish last).err = some e) : Q e := by
  cases f with
  | next w => exact hl w he
  | ret e2 w =>
    cases e2 with
    | none => cases he
    | some e3 =>
      simp only [Flow.finish, Option.some.injEq] at he
      subst he
      exact hf

theorem finish_trace_ret (e : Option Err) (w : World) (last : World → Outcome) :
    ((Flow.ret e w).finish last).trace = w.trace := rfl

theorem finish_err_ret (e : Option Err) (w : World) (last : World → Outcome) :
    ((Flow.ret e w).finish last).err = e := rfl

theorem update_eq (h : Helpers) (b : Backend) (w : World) :
    resourceUCloudDBInstanceUpdate h b w =
      ((updateHead b w).andThen fun w2 => (updateSize h b w2).andThen (updateTail b)).finish
        fun w1 =>
          resourceUCloudDBInstanceRead h b { w1 with d := { w1.d with partialOn := false } } := by
  unfold resourceUCloudDBInstanceUpdate
  rw [updateBody_eq]
  rfl

theorem isResizeStopStart_of_isRenameOrPassword (c : Call)
    (h : c.isRenameOrPassword = true) : c.isResizeStopStart = false := by
  cases c <;> simp_all [Call.isRenameOrPassword, Call.isResizeStopStart]

theorem updateSizeRequest_mode_change (h : Helpers) (d : ResourceData)
    (hNew : d.isNewResource = false) (hChanged : d.HasChange "instance_type" = true)
    (hMode : (h.parseDBInstanceType d.instance_type).Typ ≠
      (h.parseDBInstanceType d.old_instance_type).Typ) :
    ∃ e, updateSizeRequest h d = .error e ∧ e.isUpdateValidation = true := by
  unfold updateSizeRequest
  simp only [hNew, hChanged]
  by_cases he : (h.parseDBInstanceType d.instance_type).Engine ≠ d.engine
  · exact ⟨.updateEngineMismatch (h.parseDBInstanceType d.instance_type).Engine d.engine,
      by simp [he], rfl⟩
  · exact ⟨.updateTypeNotSupported, by simp [he, hMode], rfl⟩

theorem config_id (d d2 : ResourceData) (hc : d2.config = d.config) : d2.id = d.id := by
  have := congrArg ResourceData.id hc
  exact this

theorem config_zone (d d2 : ResourceData) (hc : d2.config = d.config) :
    d2.availability_zone = d.availability_zone := by
  have := congrArg ResourceData.availability_zone hc
  exact this

/-- With a service that answers every rename and password change with
success, the head of the update falls through after exactly `headCalls`. -/
theorem updateHead_ok (b : Backend) (w : World)
    (hOk : ∀ tr c, c.isRenameOrPassword = true → b.reply tr c = Reply.ok) :
    ∃ d1, updateHead b w = .next ⟨d1, w.trace ++ headCalls w.d⟩ ∧ d1.config = w.d.config := by
  unfold updateHead updateName updatePassword headCalls
  by_cases h1 : (w.d.HasChange "name" = true ∧ ¬ w.d.isNewResource = true)
  · by_cases h2 : (w.d.HasChange "password" = true ∧ ¬ w.d.isNewResource = true)
    · refine ⟨(({ w.d with partialOn := true } : ResourceData).SetPartial "name").SetPartial
        "password", ?_, rfl⟩
      have h1b : (({ w.d with partialOn := true } : ResourceData).HasChange "name" = true ∧
          ¬ ({ w.d with partialOn := true } : ResourceData).isNewResource = true) := h1
      rw [if_pos h1b, run_ok b (.ModifyUDBInstanceName _ _) _ _ (hOk _ (.ModifyUDBInstanceName _ _) rfl)]
      simp only [Flow.andThen, World.issue]
      have h2b : ((({ w.d with partialOn := true } : ResourceData).SetPartial "name").HasChange
          "password" = true ∧
          ¬ (({ w.d with partialOn := true } : ResourceData).SetPartial "name").isNewResource
            = true) := h2
      rw [if_pos h2b, run_ok b (.ModifyUDBInstancePassword _ _) _ _
        (hOk _ (.ModifyUDBInstancePassword _ _) rfl)]
      simp only [Flow.andThen, World.issue, if_pos h1, if_pos h2, List.append_assoc]
      rfl
    · refine ⟨({ w.d with partialOn := true } : ResourceData).SetPartial "name", ?_, rfl⟩
      have h1b : (({ w.d with partialOn := true } : ResourceData).HasChange "name" = true ∧
          ¬ ({ w.d with partialOn := true } : ResourceData).isNewResource = true) := h1
      rw [if_pos h1b, run_ok b (.ModifyUDBInstanceName _ _) _ _ (hOk _ (.ModifyUDBInstanceName _ _) rfl)]
      simp only [Flow.andThen, World.issue]
      have h2b : ¬ ((({ w.d with partialOn := true } : ResourceData).SetPartial "name").HasChange
          "password" = true ∧
          ¬ (({ w.d with partialOn := true } : ResourceData).SetPartial "name").isNewResource
            = true) := h2
      rw [if_neg h2b]
      simp only [if_pos h1, if_neg h2, List.append_nil]
  · by_cases h2 : (w.d.HasChange "password" = true ∧ ¬ w.d.isNewResource = true)
    · refine ⟨({ w.d with partialOn := true } : ResourceData).SetPartial "password", ?_, rfl⟩
      have h1b : ¬ (({ w.d with partialOn := true } : ResourceData).HasChange "name" = true ∧
          ¬ ({ w.d with partialOn := true } : ResourceData).isNewResource = true) := h1
      rw [if_neg h1b]
      simp only [Flow.andThen]
      have h2b : (({ w.d with partialOn := true } : ResourceData).HasChange
          "password" = true ∧
          ¬ ({ w.d with partialOn := true } : ResourceData).isNewResource = true) := h2
      rw [if_pos h2b, run_ok b (.ModifyUDBInstancePassword _ _) _ _
        (hOk _ (.ModifyUDBInstancePassword _ _) rfl)]
      simp only [Flow.andThen, World.issue, if_neg h1, if_pos h2, List.nil_append]
    · refine ⟨({ w.d with partialOn := true } : ResourceData), ?_, rfl⟩
      have h1b : ¬ (({ w.d with partialOn := true } : ResourceData).HasChange "name" = true ∧
          ¬ ({ w.d with partialOn := true } : ResourceData).isNewResource = true) := h1
      rw [if_neg h1b]
      simp only [Flow.andThen]
      have h2b : ¬ (({ w.d with partialOn := true } : ResourceData).HasChange
          "password" = true ∧
          ¬ ({ w.d with partialOn := true } : ResourceData).isNewResource = true) := h2
      rw [if_neg h2b]
      simp only [if_neg h1, if_neg h2, List.append_nil]

theorem parameterGroupCalls_config (d d2 : ResourceData) (hc : d2.config = d.config) :
    parameterGroupCalls d2 = parameterGroupCalls d := by
  have h1 : parameterGroupCalls d2 = parameterGroupCalls d2.config := rfl
  have h2 : parameterGroupCalls d = parameterGroupCalls d.config := rfl
  rw [h1, h2, hc]

theorem backupStrategyCalls_config (d d2 : ResourceData) (hc : d2.config = d.config) :
    backupStrategyCalls d2 = backupStrategyCalls d := by
  have h1 : backupStrategyCalls d2 = backupStrategyCalls d2.config := rfl
  have h2 : backupStrategyCalls d = backupStrategyCalls d.config := rfl
  rw [h1, h2, hc]

theorem blackListCalls_config (d d2 : ResourceData) (hc : d2.config = d.config) :
    blackListCalls d2 = blackListCalls d := by
  have h1 : blackListCalls d2 = blackListCalls d2.config := rfl
  have h2 : blackListCalls d = blackListCalls d.config := rfl
  rw [h1, h2, hc]

theorem updateParameterGroup_ok (b : Backend) (w : World)
    (hOk : ∀ tr c, b.reply tr c = Reply.ok) :
    ∃ d1, updateParameterGroup b w = .next ⟨d1, w.trace ++ parameterGroupCalls w.d⟩ ∧
      d1.config = w.d.config := by
  unfold updateParameterGroup parameterGroupCalls
  by_cases h1 : (w.d.HasChange "parameter_group_id" = true ∧ ¬ w.d.isNewResource = true)
  · refine ⟨w.d.SetPartial "parameter_group_id", ?_, rfl⟩
    rw [if_pos h1, if_pos h1, run_ok b _ _ _ (hOk _ _)]
    simp only [Flow.andThen]
    rw [run_ok b _ _ _ (hOk _ _)]
    simp only [Flow.andThen]
    rw [run_ok b _ _ _ (hOk _ _)]
    simp only [Flow.andThen, World.issue, List.append_assoc]
    rfl
  · refine ⟨w.d, ?_, rfl⟩
    rw [if_neg h1, if_neg h1, List.append_nil]

theorem updateBackupStrategy_ok (b : Backend) (w : World)
    (hOk : ∀ tr c, b.reply tr c = Reply.ok) :
    ∃ d1, updateBackupStrategy b w = .next ⟨d1, w.trace ++ backupStrategyCalls w.d⟩ ∧
      d1.config = w.d.config := by
  unfold updateBackupStrategy backupStrategyCalls
  simp only
  by_cases h1 : (w.d.HasChange "backup_date" = true ∨ w.d.HasChange "backup_begin_time" = true)
  · refine ⟨(w.d.SetPartial "backup_date").SetPartial "backup_begin_time", ?_, rfl⟩
    rw [if_pos h1, if_pos h1, run_ok b _ _ _ (hOk _ _)]
    simp only [Flow.andThen, World.issue]
  · refine ⟨w.d, ?_, rfl⟩
    rw [if_neg h1, if_neg h1, List.append_nil]

theorem updateBlackList_ok (b : Backend) (w : World)
    (hOk : ∀ tr c, b.reply tr c = Reply.ok) :
    ∃ d1, updateBlackList b w = .next ⟨d1, w.trace ++ blackListCalls w.d⟩ ∧
      d1.config = w.d.config := by
  unfold updateBlackList blackListCalls
  by_cases h1 : w.d.HasChange "backup_black_list" = true
  · refine ⟨w.d.SetPartial "backup_black_list", ?_, rfl⟩
    rw [if_pos h1, if_pos h1, run_ok b _ _ _ (hOk _ _)]
    simp only [Flow.andThen, World.issue]
  · refine ⟨w.d, ?_, rfl⟩
    rw [if_neg h1, if_neg h1, List.append_nil]

theorem updateTail_ok (b : Backend) (w : World) (hOk : ∀ tr c, b.reply tr c = Reply.ok) :
    ∃ d1, updateTail b w = .next ⟨d1, w.trace ++
        (parameterGroupCalls w.d ++ backupStrategyCalls w.d ++ blackListCalls w.d)⟩ ∧
      d1.config = w.d.config := by
  unfold updateTail
  obtain ⟨d1, e1, c1⟩ := updateParameterGroup_ok b w hOk
  rw [e1]
  simp only [Flow.andThen]
  obtain ⟨d2, e2, c2⟩ := updateBackupStrategy_ok b ⟨d1, w.trace ++ parameterGroupCalls w.d⟩ hOk
  rw [e2]
  simp only [Flow.andThen]
  obtain ⟨d3, e3, c3⟩ := updateBlackList_ok b
    ⟨d2, w.trace ++ parameterGroupCalls w.d ++ backupStrategyCalls d1⟩ hOk
  rw [e3]
  refine ⟨d3, ?_, by rw [c3, c2, c1]⟩
  have k2 : backupStrategyCalls d1 = backupStrategyCalls w.d :=
    backupStrategyCalls_config _ _ c1
  have k3 : blackListCalls d2 = blackListCalls w.d :=
    blackListCalls_config _ _ (by rw [c2, c1])
  simp only [k2, k3, List.append_assoc]

theorem read_trace (h : Helpers) (b : Backend) (w : World) :
    (resourceUCloudDBInstanceRead h b w).trace = w.trace ++ [.DescribeUDBInstance w.d.id] := by
  unfold resourceUCloudDBInstanceRead
  simp only
  split
  · rfl
  · rfl
  · split
    · split <;> rfl
    · rfl

/-! ## The resize flow and the errors of the update -/

theorem resizeFlow_normal_running (b : Backend) (sizeReq : ResizeUDBInstanceRequest) (w : World)
    (hOk : ∀ tr c, b.reply tr c = Reply.ok)
    (hMode : (b.describe w.trace).InstanceMode = "Normal")
    (hState : (b.describe w.trace).State = "Running") :
    resizeFlow b sizeReq w = .next ⟨(w.d.SetPartial "instance_storage").SetPartial "instance_type",
      w.trace ++ [.DescribeUDBInstance w.d.id, .StopUDBInstance w.d.id w.d.availability_zone,
        .WaitForState w.d.id ["Shutoff"], .ResizeUDBInstance sizeReq,
        .WaitForState w.d.id ["Shutoff"], .StartUDBInstance w.d.id w.d.availability_zone,
        .WaitForState w.d.id ["Running"]]⟩ := by
  have hs : (b.describe w.trace).State ≠ "Shutoff" := by rw [hState]; decide
  unfold resizeFlow
  simp only [hOk, hMode, if_true]
  unfold resizeStop
  rw [if_pos hs, run_ok b _ _ _ (hOk _ _)]
  simp only [Flow.andThen]
  rw [run_ok b _ _ _ (hOk _ _)]
  simp only [Flow.andThen]
  rw [run_ok b _ _ _ (hOk _ _)]
  simp only [Flow.andThen]
  rw [run_ok b _ _ _ (hOk _ _)]
  simp only [Flow.andThen]
  unfold resizeStart
  rw [if_pos hState, run_ok b _ _ _ (hOk _ _)]
  simp only [Flow.andThen]
  rw [run_ok b _ _ _ (hOk _ _)]
  simp only [World.issue, resizeRecorded, List.append_assoc, List.singleton_append,
    List.cons_append, List.nil_append]
  rfl

theorem resizeFlow_normal_shutoff (b : Backend) (sizeReq : ResizeUDBInstanceRequest) (w : World)
    (hOk : ∀ tr c, b.reply tr c = Reply.ok)
    (hMode : (b.describe w.trace).InstanceMode = "Normal")
    (hState : (b.describe w.trace).State = "Shutoff") :
    resizeFlow b sizeReq w = .next ⟨(w.d.SetPartial "instance_storage").SetPartial "instance_type",
      w.trace ++ [.DescribeUDBInstance w.d.id, .ResizeUDBInstance sizeReq,
        .WaitForState w.d.id ["Shutoff"]]⟩ := by
  have hs : ¬ ((b.describe w.trace).State ≠ "Shutoff") := by rw [hState]; decide
  have hr : ¬ ((b.describe w.trace).State = "Running") := by rw [hState]; decide
  unfold resizeFlow
  simp only [hOk, hMode, if_true]
  unfold resizeStop
  rw [if_neg hs]
  simp only [Flow.andThen]
  rw [run_ok b _ _ _ (hOk _ _)]
  simp only [Flow.andThen]
  rw [run_ok b _ _ _ (hOk _ _)]
  simp only [Flow.andThen]
  unfold resizeStart
  rw [if_neg hr]
  simp only [World.issue, resizeRecorded, List.append_assoc, List.singleton_append,
    List.cons_append, List.nil_append]

theorem resizeFlow_other_mode (b : Backend) (sizeReq : ResizeUDBInstanceRequest) (w : World)
    (hOk : ∀ tr c, b.reply tr c = Reply.ok)
    (hMode : (b.describe w.trace).InstanceMode ≠ "Normal") :
    resizeFlow b sizeReq w = .next ⟨(w.d.SetPartial "instance_storage").SetPartial "instance_type",
      w.trace ++ [.DescribeUDBInstance w.d.id, .ResizeUDBInstance sizeReq,
        .WaitForState w.d.id ["Running", "Shutoff"]]⟩ := by
  unfold resizeFlow
  simp only [hOk, hMode, if_false]
  rw [run_ok b _ _ _ (hOk _ _)]
  simp only [Flow.andThen]
  rw [run_ok b _ _ _ (hOk _ _)]
  simp only [Flow.andThen, World.issue, resizeRecorded, List.append_assoc,
    List.singleton_append, List.cons_append, List.nil_append]

/-- With a service that answers every call with success, an update that
needs a resize issues `headCalls`, then what the resize flow issues, then
`tailCalls`. -/
theorem update_trace_of_resize (h : Helpers) (b : Backend) (d : ResourceData)
    (sizeReq : ResizeUDBInstanceRequest) (calls : List Call)
    (hOk : ∀ tr c, b.reply tr c = Reply.ok)
    (hSize : updateSizeRequest h d = .ok (true, sizeReq))
    (hFlow : ∀ w : World, w.trace = headCalls d → w.d.config = d.config →
      resizeFlow b sizeReq w =
        .next ⟨(w.d.SetPartial "instance_storage").SetPartial "instance_type",
          w.trace ++ .DescribeUDBInstance d.id :: calls⟩) :
    (resourceUCloudDBInstanceUpdate h b ⟨d, []⟩).trace =
      headCalls d ++ .DescribeUDBInstance d.id :: (calls ++ tailCalls d) := by
  rw [update_eq]
  obtain ⟨d1, e1, c1⟩ := updateHead_ok b ⟨d, []⟩ (fun tr c _ => hOk tr c)
  rw [e1]
  simp only [Flow.andThen, updateSize, List.nil_append]
  rw [updateSizeRequest_config h d d1 c1, hSize]
  simp only [if_true]
  rw [hFlow ⟨d1, headCalls d⟩ rfl c1]
  simp only [Flow.andThen]
  obtain ⟨d2, e2, c2⟩ := updateTail_ok b
    ⟨(d1.SetPartial "instance_storage").SetPartial "instance_type",
      headCalls d ++ .DescribeUDBInstance d.id :: calls⟩ hOk
  rw [e2]
  simp only [Flow.finish, read_trace]
  have c3 : d2.config = d.config := by rw [c2]; exact c1
  have k1 := parameterGroupCalls_config d _ (show
    ((d1.SetPartial "instance_storage").SetPartial "instance_type").config = d.config from c1)
  have k2 := backupStrategyCalls_config d _ (show
    ((d1.SetPartial "instance_storage").SetPartial "instance_type").config = d.config from c1)
  have k3 := blackListCalls_config d _ (show
    ((d1.SetPartial "instance_storage").SetPartial "instance_type").config = d.config from c1)
  have k4 : d2.id = d.id := config_id d d2 c3
  simp only [k1, k2, k3, k4, tailCalls, List.append_assoc, List.cons_append]

theorem updateSizeRequest_error (h : Helpers) (d : ResourceData) (e : Err)
    (he : updateSizeRequest h d = .error e) :
    e.isUpdateValidation = true ∧ e.isCreateValidation = false ∧ d.isNewResource = false := by
  unfold updateSizeRequest at he
  simp only at he
  split at he
  · rename_i hc
    split at he
    · cases he
      exact ⟨rfl, rfl, by simpa using hc.2⟩
    · split at he
      · cases he
        exact ⟨rfl, rfl, by simpa using hc.2⟩
      · cases he
  · cases he

theorem createTypeValidation_error (engine : String) (t : dbInstanceType) (e : Err)
    (he : createTypeValidation engine t = some e) : e.isUpdateValidation = false := by
  unfold createTypeValidation at he
  split at he
  · cases he; rfl
  · split at he
    · cases he; rfl
    · split at he
      · cases he; rfl
      · cases he

theorem createStorageCheck_error (m s : Int) (e : Err)
    (he : createStorageCheck m s = some e) : e.isUpdateValidation = false := by
  unfold createStorageCheck at he
  split at he
  · cases he; rfl
  · split at he
    · cases he; rfl
    · split at he
      · cases he; rfl
      · cases he

theorem createVersionCheck_error (engine v : String) (e : Err)
    (he : createVersionCheck engine v = some e) : e.isUpdateValidation = false := by
  unfold createVersionCheck at he
  split at he
  · split at he
    · cases he
    · cases he; rfl
  · split at he
    · cases he
    · cases he; rfl

theorem buildCreateRequest_error (h : Helpers) (d : ResourceData) (e : Err)
    (he : buildCreateRequest h d = .error e) : e.isUpdateValidation = false := by
  unfold buildCreateRequest at he
  simp only at he
  split at he
  · rename_i e1 h1
    cases he
    exact createTypeValidation_error _ _ _ h1
  · split at he
    · rename_i e1 h1
      cases he
      exact createStorageCheck_error _ _ _ h1
    · split at he
      · cases he; rfl
      · split at he
        · rename_i e1 h1
          cases he
          exact createVersionCheck_error _ _ _ h1
        · split at he
          · cases he; rfl
          · split at he
            · cases he; rfl
            · cases he

theorem next_andThen (w : World) (k : World → Flow) : (Flow.next w).andThen k = k w := rfl

theorem ret_andThen (e : Option Err) (w : World) (k : World → Flow) :
    (Flow.ret e w).andThen k = .ret e w := rfl

theorem updateSize_error (h : Helpers) (b : Backend) (w : World) (e : Err)
    (hreq : updateSizeRequest h w.d = .error e) : updateSize h b w = .ret (some e) w := by
  unfold updateSize
  rw [hreq]

theorem updateSize_ok (h : Helpers) (b : Backend) (w : World) (changed : Bool)
    (req : ResizeUDBInstanceRequest) (hreq : updateSizeRequest h w.d = .ok (changed, req)) :
    updateSize h b w = if changed then resizeFlow b req w else .next w := by
  unfold updateSize
  rw [hreq]

/-- An error of the update is either no validation error, or it is a
validation error of the update, returned for an existing instance after
renames and password changes only. -/
theorem update_err_cases (h : Helpers) (b : Backend) (w : World) (e : Err)
    (he : (resourceUCloudDBInstanceUpdate h b w).err = some e) :
    e.isRemote ∨
    (e.isUpdateValidation = true ∧ e.isCreateValidation = false ∧ w.d.isNewResource = false ∧
      ∃ ext, (resourceUCloudDBInstanceUpdate h b w).trace = w.trace ++ ext ∧
        ∀ c ∈ ext, c.isRenameOrPassword = true) := by
  rw [update_eq] at he ⊢
  rcases updateHead_cases b w with ⟨op, w1, hw, hext⟩ | ⟨w1, hw, hcfg, hext⟩
  · rw [hw, ret_andThen, finish_err_ret] at he
    cases he
    exact Or.inl ⟨rfl, rfl⟩
  · rw [hw, next_andThen] at he ⊢
    cases hreq : updateSizeRequest h w1.d with
    | error e2 =>
      rw [updateSize_error h b w1 e2 hreq, ret_andThen] at he ⊢
      rw [finish_err_ret] at he
      rw [finish_trace_ret]
      cases he
      obtain ⟨h1, h2, h3⟩ := updateSizeRequest_error h w1.d e hreq
      have hnew : w.d.isNewResource = false := by
        have := congrArg ResourceData.isNewResource hcfg
        rw [← h3]
        exact this.symm
      exact Or.inr ⟨h1, h2, hnew, hext⟩
    | ok p =>
      obtain ⟨changed, req⟩ := p
      rw [updateSize_ok h b w1 changed req hreq] at he
      left
      refine finish_err Err.isRemote _ _ e ?_ (fun w2 => read_err h b _ e) he
      apply andThen_errorsIn
      · split
        · exact resizeFlow_errorsIn _ _ _
        · trivial
      · intro w3 _
        exact updateTail_errorsIn _ _

/-! ## C1: the storage ceiling of the create -/

/-- Line 206 multiplies the memory tier by 1000 before lines 207-217 compare
it with 8, 24 and 32: for every memory tier from 1 on, the storage check
passes whatever the storage size is. -/
theorem createStorageCheck_positive_tier (m s : Int) (h1 : 1 ≤ m) (h2 : m < 2 ^ 53) :
    createStorageCheck (wrapInt (m * 1000)) s = none := by
  have hw : wrapInt (m * 1000) = m * 1000 := by
    unfold wrapInt
    have : (m * 1000 + 2 ^ 63) % 2 ^ 64 = m * 1000 + 2 ^ 63 := by
      apply Int.emod_eq_of_lt <;> omega
    omega
  rw [hw]
  unfold createStorageCheck
  have h8 : ¬ (m * 1000 ≤ 8) := by omega
  have h24 : ¬ (m * 1000 ≤ 24) := by omega
  have h32 : ¬ (m * 1000 = 32) := by omega
  simp [h8, h24, h32]

/-- C1, the code at the failing input: for the instance type "mysql-ha-8"
(memory tier 8, ceiling 500) and a storage size of 600, the storage check of
`resourceUCloudDBInstanceCreate` passes and the first call of the run is
`CreateUDBInstance` with `DiskSpace` 600 and `MemoryLimit` 8000. -/
theorem create_storage_above_ceiling_accepted :
    (specHelpers.parseDBInstanceType tier8Storage600.instance_type).Memory = 8 ∧
    tier8Storage600.instance_storage = 600 ∧
    createStorageCheck (wrapInt (8 * 1000)) 600 = none ∧
    (resourceUCloudDBInstanceCreate specHelpers (okBackend {} {}) ⟨tier8Storage600, []⟩).trace.head?
      = some (Call.CreateUDBInstance
          { Name := "db", AdminPassword := "", Zone := "", DiskSpace := 600,
            ChargeType := "Month", Quantity := 1, AdminUser := "root",
            InstanceType := "SATA_SSD", MemoryLimit := 8000, InstanceMode := "HA",
            DBTypeId := "mysql-5.7", Tag := none, Port := some 3306, BackupZone := none,
            BackupCount := some 7, BackupId := none, VPCId := none, SubnetId := none,
            ParamGroupId := 1 }) := by
  refine ⟨by decide, by decide, by decide, by decide⟩

/-! ## C2: the type validation of the create -/

/-- C2, as the code has it: when the engine of the instance type equals the
declared engine, the type validation at the start of
`resourceUCloudDBInstanceCreate` rejects exactly the pairs (postgresql, ha)
and (mysql, basic), every other pair passes, (percona, basic) among them; a
rejected create returns the error of the validation and issues no call. -/
theorem create_type_validation (h : Helpers) (b : Backend) (d : ResourceData)
    (hEngine : (h.parseDBInstanceType d.instance_type).Engine = d.engine) :
    ((createTypeValidation d.engine (h.parseDBInstanceType d.instance_type)).isSome ↔
      (d.engine = "postgresql" ∧ (h.parseDBInstanceType d.instance_type).Typ = "ha") ∨
      (d.engine = "mysql" ∧ (h.parseDBInstanceType d.instance_type).Typ = "basic")) ∧
    ((createTypeValidation d.engine (h.parseDBInstanceType d.instance_type)).isSome →
      (resourceUCloudDBInstanceCreate h b ⟨d, []⟩).err =
          createTypeValidation d.engine (h.parseDBInstanceType d.instance_type) ∧
      (resourceUCloudDBInstanceCreate h b ⟨d, []⟩).trace = []) := by
  constructor
  · unfold createTypeValidation
    rw [hEngine]
    by_cases h1 : d.engine = "postgresql" ∧ (h.parseDBInstanceType d.instance_type).Typ = "ha"
    · simp [h1]
    · by_cases h2 : d.engine = "mysql" ∧ (h.parseDBInstanceType d.instance_type).Typ = "basic"
      · simp [h1, h2]
      · simp [h1, h2]
  · intro hs
    unfold resourceUCloudDBInstanceCreate buildCreateRequest
    cases hv : createTypeValidation d.engine (h.parseDBInstanceType d.instance_type) with
    | none => simp [hv] at hs
    | some e => simp [hv]

/-- C2 at a concrete input: the create of a postgresql instance of type
"postgresql-ha-4" returns the high availability error and issues no call. -/
theorem create_type_validation_witness :
    (resourceUCloudDBInstanceCreate specHelpers (okBackend {} {}) ⟨postgresqlHA, []⟩).err =
        createTypeValidation postgresqlHA.engine
          (specHelpers.parseDBInstanceType postgresqlHA.instance_type) ∧
      (resourceUCloudDBInstanceCreate specHelpers (okBackend {} {}) ⟨postgresqlHA, []⟩).trace
        = [] :=
  (create_type_validation specHelpers (okBackend {} {}) postgresqlHA (by decide)).2 (by decide)

/-- C2 as stated fails: the pair (percona, basic), with the engine of the
type equal to the declared engine, passes the type validation. -/
theorem percona_basic_passes_type_validation :
    createTypeValidation "percona" { Engine := "percona", Typ := "basic", Memory := 1 } = none := by
  decide

/-! ## C3: the header of the upload content -/

theorem stringsJoin_pair_data (a b : String) :
    (stringsJoin [a, b] "-").data = a.data ++ '-' :: b.data := by
  simp [stringsJoin, joinChars]

theorem stringsJoin_pair_ne (a b s : String) (hs : '-' ∉ s.data) :
    stringsJoin [a, b] "-" ≠ s := by
  intro h
  apply hs
  rw [← h, stringsJoin_pair_data]
  simp

/-- A type identifier that passed the check of line 129 is an engine and a
version joined by "-", which none of the three strings of lines 175-179 is:
the upload lines are the member lines alone, for every engine and version. -/
theorem uploadLines_without_header (h : Helpers) (engine engineVersion : String)
    (member : List (String × String)) :
    uploadLines h (stringsJoin [engine, engineVersion] "-") member =
      (h.mapRange member).map fun kv => kv.1 ++ " = " ++ kv.2 := by
  have h1 := stringsJoin_pair_ne engine engineVersion "mysql" (by decide)
  have h2 := stringsJoin_pair_ne engine engineVersion "percona" (by decide)
  have h3 := stringsJoin_pair_ne engine engineVersion "postgresql" (by decide)
  simp [uploadLines, h1, h2, h3]

/-- C3, the code at the failing input: for engine mysql, version 5.7 and a
source group of type "mysql-5.7" that passed the check, the text that is
encoded and uploaded is the member line "max_connections = 200" alone, with
no "[mysqld]" line in front. -/
theorem upload_content_lacks_header :
    mysqlSourceGroup.DBTypeId =
      stringsJoin [mysqlOverride.engine, mysqlOverride.engine_version] "-" ∧
    uploadText specHelpers mysqlSourceGroup.DBTypeId [("max_connections", "200")] =
      "max_connections = 200" ∧
    (resourceUCloudDBParamGroupCreate specHelpers (okBackend {} mysqlSourceGroup)
        mysqlOverride []).trace =
      [ .DescribeUDBParamGroup "1",
        .UploadUDBParamGroup
          { DBTypeId := "mysql-5.7", GroupName := "pg", Description := none,
            Content := specHelpers.base64Encode "max_connections = 200", RegionFlag := none },
        .DescribeUDBParamGroup "1" ] := by
  refine ⟨by decide, by decide, by decide⟩

/-! ## C4: an override key the source group does not have -/

/-- C4: when the source group was resolved and passed the type check, and the
override set holds a pair whose key is no key of the source member set,
`resourceUCloudDBParamGroupCreate` returns the invalid key error for an
override key the source does not have, the only call it issued is the
describe of the source group (no `UploadUDBParamGroup`, no
`CreateUDBParamGroup`), and the resource data, the identifier included, is
as it was. -/
theorem paramGroupCreate_invalid_key (h : Helpers) (b : Backend) (d : ParamGroupData)
    (srcGroupId : Int) (k v : String)
    (hAtoi : strconvAtoi d.src_group_id = some srcGroupId)
    (hDescribe : b.reply [] (.DescribeUDBParamGroup d.src_group_id) = Reply.ok)
    (hType : (b.describeParamGroup []).DBTypeId = stringsJoin [d.engine, d.engine_version] "-")
    (hPair : (k, v) ∈ d.parameter_input)
    (hKey : ∀ item ∈ (b.describeParamGroup []).ParamMember, item.Key ≠ k) :
    ∃ k2, (resourceUCloudDBParamGroupCreate h b d []).err = some (.pgInvalidKey k2) ∧
      k2 ∈ d.parameter_input.map Prod.fst ∧
      (∀ item ∈ (b.describeParamGroup []).ParamMember, item.Key ≠ k2) ∧
      (resourceUCloudDBParamGroupCreate h b d []).trace =
        [.DescribeUDBParamGroup d.src_group_id] ∧
      (resourceUCloudDBParamGroupCreate h b d []).d = d := by
  have hne : d.parameter_input ≠ [] := by
    intro hnil; rw [hnil] at hPair; simp at hPair
  have hnone : mapGet (copyMembers (b.describeParamGroup []).ParamMember) k = none := by
    cases hg : mapGet (copyMembers (b.describeParamGroup []).ParamMember) k with
    | none => rfl
    | some v0 =>
      have := (mapGet_copyMembers_isSome (b.describeParamGroup []).ParamMember k).mp
        (by simp [hg])
      obtain ⟨item, hi, hk⟩ := this
      exact absurd hk (hKey item hi)
  obtain ⟨k2, he, hk2, hmem⟩ := applyParamInput_invalid d.parameter_input
    (copyMembers (b.describeParamGroup []).ParamMember) ⟨(k, v), hPair, hnone⟩
  refine ⟨k2, ?_, hmem, ?_, ?_, ?_⟩
  · simp [resourceUCloudDBParamGroupCreate, hAtoi, hDescribe, hType, hne, createWithOverrides,
      effectiveMember, he]
  · intro item hi hk
    have := (mapGet_copyMembers_isSome (b.describeParamGroup []).ParamMember k2).mpr
      ⟨item, hi, hk⟩
    simp [hk2] at this
  · simp [resourceUCloudDBParamGroupCreate, hAtoi, hDescribe, hType, hne, createWithOverrides,
      effectiveMember, he]
  · simp [resourceUCloudDBParamGroupCreate, hAtoi, hDescribe, hType, hne, createWithOverrides,
      effectiveMember, he]

/-- C4 at a concrete input: the override set of `unknownKeyOverride` holds the
key "no_such_key", which the source group `mysqlSourceGroup` does not have. -/
theorem paramGroupCreate_invalid_key_witness :
    ∃ k2, (resourceUCloudDBParamGroupCreate specHelpers (okBackend {} mysqlSourceGroup)
        unknownKeyOverride []).err = some (.pgInvalidKey k2) ∧
      k2 ∈ unknownKeyOverride.parameter_input.map Prod.fst ∧
      (∀ item ∈ ((okBackend {} mysqlSourceGroup).describeParamGroup []).ParamMember,
        item.Key ≠ k2) ∧
      (resourceUCloudDBParamGroupCreate specHelpers (okBackend {} mysqlSourceGroup)
        unknownKeyOverride []).trace = [.DescribeUDBParamGroup unknownKeyOverride.src_group_id] ∧
      (resourceUCloudDBParamGroupCreate specHelpers (okBackend {} mysqlSourceGroup)
        unknownKeyOverride []).d = unknownKeyOverride :=
  paramGroupCreate_invalid_key specHelpers (okBackend {} mysqlSourceGroup) unknownKeyOverride
    1 "no_such_key" "1" (by decide) (by decide) (by decide) (by decide) (by decide)

/-! ## C5: the effective member mapping -/

/-- C5: when every override key occurs in the source member set, the
effective member mapping is built without error, its keys are pairwise
distinct and are exactly the keys of the source member set, a key with a
single override pair is mapped to the value of that pair, and a key without
an override is mapped to the value the source group has for it. -/
theorem effectiveMember_spec (memberSet : List ParamMember)
    (paramInput : List (String × String))
    (hkeys : ∀ p ∈ paramInput, ∃ item ∈ memberSet, item.Key = p.1) :
    ∃ member, effectiveMember memberSet paramInput = .ok member ∧
      (member.map Prod.fst).Nodup ∧
      (∀ k, (mapGet member k).isSome ↔ ∃ item ∈ memberSet, item.Key = k) ∧
      (∀ k v, (k, v) ∈ paramInput → (∀ v2, (k, v2) ∈ paramInput → v2 = v) →
        mapGet member k = some v) ∧
      (∀ k v, ({ Key := k, Value := v } : ParamMember) ∈ memberSet →
        (∀ v2, ({ Key := k, Value := v2 } : ParamMember) ∈ memberSet → v2 = v) →
        (∀ v2, (k, v2) ∉ paramInput) → mapGet member k = some v) := by
  have hok := applyParamInput_ok paramInput (copyMembers memberSet) (by
    intro p hp
    exact (mapGet_copyMembers_isSome memberSet p.1).mpr (hkeys p hp))
  refine ⟨_, hok, ?_, ?_, ?_, ?_⟩
  · apply keys_foldl_mapSet_nodup
    rw [copyMembers_eq]
    apply keys_foldl_mapSet_nodup
    simp
  · intro k
    rw [mapGet_foldl_mapSet]
    cases hr : lastValue paramInput k with
    | none => exact mapGet_copyMembers_isSome memberSet k
    | some v =>
      simp only [Option.isSome_some, true_iff]
      exact hkeys (k, v) (lastValue_mem _ _ _ hr)
  · intro k v hmem huniq
    rw [mapGet_foldl_mapSet]
    obtain ⟨v2, hv2⟩ := lastValue_isSome_of_mem _ _ _ hmem
    rw [hv2, huniq v2 (lastValue_mem _ _ _ hv2)]
  · intro k v hmem huniq hnone
    rw [mapGet_foldl_mapSet, lastValue_eq_none _ _ hnone, copyMembers_eq, mapGet_foldl_mapSet]
    have hm : (k, v) ∈ memberSet.map fun item => (item.Key, item.Value) := by
      simp only [List.mem_map, Prod.mk.injEq]
      exact ⟨_, hmem, rfl, rfl⟩
    obtain ⟨v2, hv2⟩ := lastValue_isSome_of_mem _ _ _ hm
    rw [hv2]
    have h3 := lastValue_mem _ _ _ hv2
    simp only [List.mem_map, Prod.mk.injEq] at h3
    obtain ⟨item, hi, hk, hv⟩ := h3
    obtain ⟨ik, iv⟩ := item
    simp only at hk hv
    subst hk; subst hv
    rw [huniq _ hi]

/-- C5 at a concrete input: two source members, one override. -/
theorem effectiveMember_spec_witness :
    ∃ member, effectiveMember [⟨"max_connections", "100"⟩, ⟨"wait_timeout", "30"⟩]
        [("max_connections", "200")] = .ok member ∧
      mapGet member "max_connections" = some "200" ∧
      mapGet member "wait_timeout" = some "30" := by
  obtain ⟨member, h1, _, _, h4, h5⟩ :=
    effectiveMember_spec [⟨"max_connections", "100"⟩, ⟨"wait_timeout", "30"⟩]
      [("max_connections", "200")] (by decide)
  refine ⟨member, h1, h4 "max_connections" "200" (by decide) ?_,
    h5 "wait_timeout" "30" (by decide) ?_ ?_⟩
  · intro v2 hv2
    simp at hv2
    exact hv2
  · intro v2 hv2
    simp at hv2
    exact hv2
  · intro v2 hv2
    simp at hv2

/-! ## C6: a changed mode is rejected -/

/-- C6: for every update of an existing instance in which `instance_type`
changed and the mode of the new type differs from the mode of the old type,
`resourceUCloudDBInstanceUpdate` returns an error and its trace holds no
`ResizeUDBInstance`, `StopUDBInstance` or `StartUDBInstance`, whatever else
changed and whatever the remote service answers. -/
theorem update_mode_change_rejected (h : Helpers) (b : Backend) (d : ResourceData)
    (hNew : d.isNewResource = false) (hChanged : d.HasChange "instance_type" = true)
    (hMode : (h.parseDBInstanceType d.instance_type).Typ ≠
      (h.parseDBInstanceType d.old_instance_type).Typ) :
    (∃ e, (resourceUCloudDBInstanceUpdate h b ⟨d, []⟩).err = some e) ∧
    ∀ c ∈ (resourceUCloudDBInstanceUpdate h b ⟨d, []⟩).trace, c.isResizeStopStart = false := by
  rw [update_eq]
  rcases updateHead_cases b ⟨d, []⟩ with ⟨op, w1, hw, hext⟩ | ⟨w1, hw, hcfg, hext⟩
  · rw [hw]
    obtain ⟨ext, htr, hP⟩ := hext
    refine ⟨⟨_, rfl⟩, ?_⟩
    intro c hc
    apply isResizeStopStart_of_isRenameOrPassword
    apply hP
    simp only [Flow.andThen, Flow.finish] at hc
    rw [htr] at hc
    simpa using hc
  · rw [hw]
    obtain ⟨e, he, _⟩ := updateSizeRequest_mode_change h d hNew hChanged hMode
    have hreq : updateSizeRequest h w1.d = .error e := by
      rw [updateSizeRequest_config h d w1.d hcfg, he]
    obtain ⟨ext, htr, hP⟩ := hext
    simp only [Flow.andThen, updateSize, hreq, Flow.finish]
    refine ⟨⟨_, rfl⟩, ?_⟩
    intro c hc
    apply isResizeStopStart_of_isRenameOrPassword
    apply hP
    rw [htr] at hc
    simpa using hc

/-- C6 at a concrete input: the type goes from "mysql-normal-8" to "mysql-ha-8". -/
theorem update_mode_change_rejected_witness :
    (∃ e, (resourceUCloudDBInstanceUpdate specHelpers (okBackend {} {}) ⟨modeChange, []⟩).err
      = some e) ∧
    ∀ c ∈ (resourceUCloudDBInstanceUpdate specHelpers (okBackend {} {}) ⟨modeChange, []⟩).trace,
      c.isResizeStopStart = false :=
  update_mode_change_rejected specHelpers (okBackend {} {}) modeChange (by decide) (by decide)
    (by decide)

/-! ## C8: the round trip of the backup blacklist -/

/-- The round trip of the blacklist for a set that is not empty: joined with
";" as line 484 does and split on ";" as line 528 does, the list of names
none of which holds a ";" comes back as it was. -/
theorem blacklist_roundtrip_nonempty (names : List String) (hne : names ≠ [])
    (h : ∀ s ∈ names, ';' ∉ s.data) :
    stringsSplit (blackListString names) ';' = names := by
  unfold stringsSplit blackListString stringsJoin
  have hd : (";" : String).data = [';'] := rfl
  rw [hd]
  simp only
  rw [splitChars_joinChars ';' (names.map String.data) (by simpa using hne) (by
    intro x hx
    obtain ⟨s, hs, rfl⟩ := List.mem_map.mp hx
    exact h s hs)]
  rw [List.map_map]
  conv => rhs; rw [← List.map_id names]
  apply List.map_congr_left
  intro s _
  rfl

/-- C8, the code at the failing input: the empty set is joined to the empty
string, and the read splits the empty string into the list of one empty
name, whose set of elements is not the empty set. -/
theorem blacklist_roundtrip_empty :
    blackListString [] = "" ∧
    stringsSplit (blackListString []) ';' = [""] ∧
    (resourceUCloudDBInstanceRead specHelpers (okBackend emptyBlacklistInstance {})
      ⟨{ id := "udb-1" }, []⟩).d.backup_black_list = [""] := by
  refine ⟨by decide, by decide, by decide⟩

/-! ## C7: the sequence of the resize flow -/

/-- C7: when an update of an existing instance needs a resize and every
remote call and wait succeeds, the trace of
`resourceUCloudDBInstanceUpdate` is the rename and password calls, the
describe, the calls of the resize flow and the calls of the rest of the
update, where the calls of the resize flow are: for remote mode "Normal" and
state Running, stop, wait(Shutoff), resize, wait(Shutoff), start,
wait(Running); for remote mode "Normal" and state Shutoff, resize,
wait(Shutoff); for every other remote mode, resize, wait(Running or Shutoff). -/
theorem resize_flow_sequence (h : Helpers) (b : Backend) (d : ResourceData)
    (sizeReq : ResizeUDBInstanceRequest) (db : DBInstance)
    (hOk : ∀ tr c, b.reply tr c = Reply.ok)
    (hDb : ∀ tr, b.describe tr = db)
    (hSize : updateSizeRequest h d = .ok (true, sizeReq)) :
    (db.InstanceMode = "Normal" → db.State = "Running" →
      (resourceUCloudDBInstanceUpdate h b ⟨d, []⟩).trace =
        headCalls d ++ .DescribeUDBInstance d.id ::
          ([.StopUDBInstance d.id d.availability_zone, .WaitForState d.id ["Shutoff"],
            .ResizeUDBInstance sizeReq, .WaitForState d.id ["Shutoff"],
            .StartUDBInstance d.id d.availability_zone, .WaitForState d.id ["Running"]] ++
            tailCalls d)) ∧
    (db.InstanceMode = "Normal" → db.State = "Shutoff" →
      (resourceUCloudDBInstanceUpdate h b ⟨d, []⟩).trace =
        headCalls d ++ .DescribeUDBInstance d.id ::
          ([.ResizeUDBInstance sizeReq, .WaitForState d.id ["Shutoff"]] ++ tailCalls d)) ∧
    (db.InstanceMode ≠ "Normal" →
      (resourceUCloudDBInstanceUpdate h b ⟨d, []⟩).trace =
        headCalls d ++ .DescribeUDBInstance d.id ::
          ([.ResizeUDBInstance sizeReq, .WaitForState d.id ["Running", "Shutoff"]] ++
            tailCalls d)) := by
  refine ⟨?_, ?_, ?_⟩
  · intro hm hs
    apply update_trace_of_resize h b d sizeReq _ hOk hSize
    intro w _ hc
    rw [resizeFlow_normal_running b sizeReq w hOk (by rw [hDb]; exact hm) (by rw [hDb]; exact hs),
      config_id d w.d hc, config_zone d w.d hc]
  · intro hm hs
    apply update_trace_of_resize h b d sizeReq _ hOk hSize
    intro w _ hc
    rw [resizeFlow_normal_shutoff b sizeReq w hOk (by rw [hDb]; exact hm) (by rw [hDb]; exact hs),
      config_id d w.d hc]
  · intro hm
    apply update_trace_of_resize h b d sizeReq _ hOk hSize
    intro w _ hc
    rw [resizeFlow_other_mode b sizeReq w hOk (by rw [hDb]; exact hm), config_id d w.d hc]

/-- C7 at a concrete input: a changed storage size on a running instance of
remote mode "Normal". -/
theorem resize_flow_sequence_witness :
    (resourceUCloudDBInstanceUpdate specHelpers (okBackend normalRunning {})
        ⟨storageChange, []⟩).trace =
      [ .DescribeUDBInstance "udb-1", .StopUDBInstance "udb-1" "", .WaitForState "udb-1" ["Shutoff"],
        .ResizeUDBInstance { DBId := "udb-1", MemoryLimit := none, DiskSpace := some 200 },
        .WaitForState "udb-1" ["Shutoff"], .StartUDBInstance "udb-1" "",
        .WaitForState "udb-1" ["Running"], .DescribeUDBInstance "udb-1" ] :=
  (resize_flow_sequence specHelpers (okBackend normalRunning {}) storageChange
    { DBId := "udb-1", MemoryLimit := none, DiskSpace := some 200 } normalRunning
    (fun _ _ => rfl) (fun _ => rfl) rfl).1 (by decide) (by decide)

/-! ## C9: the instance is not found when a resize is needed -/

/-- C9, as the code has it: when a resize is needed, the rename and password
calls succeed and the describe reports that the instance is not found, the
update clears the local identifier, issues no call after the describe, and
returns `nil`, not an error. -/
theorem update_resize_not_found (h : Helpers) (b : Backend) (d : ResourceData)
    (sizeReq : ResizeUDBInstanceRequest)
    (hOk : ∀ tr c, c.isRenameOrPassword = true → b.reply tr c = Reply.ok)
    (hSize : updateSizeRequest h d = .ok (true, sizeReq))
    (hNotFound : ∀ tr, b.reply tr (.DescribeUDBInstance d.id) = Reply.notFound) :
    (resourceUCloudDBInstanceUpdate h b ⟨d, []⟩).err = none ∧
    (resourceUCloudDBInstanceUpdate h b ⟨d, []⟩).d.id = "" ∧
    (resourceUCloudDBInstanceUpdate h b ⟨d, []⟩).trace =
      headCalls d ++ [.DescribeUDBInstance d.id] := by
  rw [update_eq]
  obtain ⟨d1, e1, c1⟩ := updateHead_ok b ⟨d, []⟩ hOk
  rw [e1]
  simp only [Flow.andThen, updateSize, List.nil_append]
  rw [updateSizeRequest_config h d d1 c1, hSize]
  simp only [if_true]
  have hid : d1.id = d.id := config_id d d1 c1
  unfold resizeFlow
  simp only [hid, hNotFound, Flow.andThen, Flow.finish, World.issue, and_self]

/-- C9 at a concrete input: a changed storage size, the instance not found. -/
theorem update_resize_not_found_witness :
    (resourceUCloudDBInstanceUpdate specHelpers notFoundBackend ⟨storageChange, []⟩).err = none ∧
    (resourceUCloudDBInstanceUpdate specHelpers notFoundBackend ⟨storageChange, []⟩).d.id = "" ∧
    (resourceUCloudDBInstanceUpdate specHelpers notFoundBackend ⟨storageChange, []⟩).trace =
      headCalls storageChange ++ [.DescribeUDBInstance storageChange.id] :=
  update_resize_not_found specHelpers notFoundBackend storageChange
    { DBId := "udb-1", MemoryLimit := none, DiskSpace := some 200 }
    (fun _ c hc => by cases c <;> first | rfl | cases hc) rfl (fun _ => rfl)

/-- C9 as stated fails: with a changed storage size and a describe that
reports not found, the update returns no error; the identifier is cleared
and the describe is the only call. -/
theorem update_resize_not_found_returns_nil :
    (resourceUCloudDBInstanceUpdate specHelpers notFoundBackend ⟨storageChange, []⟩).err = none ∧
    (resourceUCloudDBInstanceUpdate specHelpers notFoundBackend ⟨storageChange, []⟩).d.id = "" ∧
    (resourceUCloudDBInstanceUpdate specHelpers notFoundBackend ⟨storageChange, []⟩).trace =
      [.DescribeUDBInstance "udb-1"] := by
  refine ⟨by decide, by decide, by decide⟩

/-! ## C10: validation errors and remote calls -/

/-- C10, as the code has it: a create that returns one of its validation
errors has issued no remote call, and a create of a new resource never
returns a validation error of the update; an update that returns a
validation error (engine of the new type differs from the declared engine,
changed mode) has issued renames and password changes only, the calls of
lines 304-324 that precede the validation. -/
theorem validation_error_calls (h : Helpers) (b : Backend) (d : ResourceData) (e : Err) :
    ((resourceUCloudDBInstanceCreate h b ⟨d, []⟩).err = some e → e.isCreateValidation = true →
      (resourceUCloudDBInstanceCreate h b ⟨d, []⟩).trace = []) ∧
    ((resourceUCloudDBInstanceCreate h b ⟨d, []⟩).err = some e → d.isNewResource = true →
      e.isUpdateValidation = false) ∧
    ((resourceUCloudDBInstanceUpdate h b ⟨d, []⟩).err = some e → e.isUpdateValidation = true →
      ∀ c ∈ (resourceUCloudDBInstanceUpdate h b ⟨d, []⟩).trace, c.isRenameOrPassword = true) := by
  have hcreate : ∀ req, (createRemote h b req ⟨d, []⟩).err = some e →
      e.isCreateValidation = false ∧ (d.isNewResource = true → e.isUpdateValidation = false) := by
    intro req he
    unfold createRemote at he
    simp only at he
    split at he
    · unfold Backend.run at he
      split at he
      · simp only [Flow.finish] at he
        rcases update_err_cases h b _ e he with hr | ⟨_, h2, h3, _⟩
        · exact ⟨hr.1, fun _ => hr.2⟩
        · refine ⟨h2, fun hn => ?_⟩
          simp only [World.issue] at h3
          rw [hn] at h3
          cases h3
      · simp only [Flow.finish, Option.some.injEq] at he
        subst he
        exact ⟨rfl, fun _ => rfl⟩
    · simp only [Option.some.injEq] at he
      subst he
      exact ⟨rfl, fun _ => rfl⟩
  refine ⟨?_, ?_, ?_⟩
  · intro he hv
    unfold resourceUCloudDBInstanceCreate at he ⊢
    cases hb : buildCreateRequest h d with
    | error e2 => rfl
    | ok req =>
      rw [hb] at he
      have := (hcreate req he).1
      rw [hv] at this
      cases this
  · intro he hn
    unfold resourceUCloudDBInstanceCreate at he
    cases hb : buildCreateRequest h d with
    | error e2 =>
      rw [hb] at he
      simp only [Option.some.injEq] at he
      subst he
      exact buildCreateRequest_error h d _ hb
    | ok req =>
      rw [hb] at he
      exact (hcreate req he).2 hn
  · intro he hv
    rcases update_err_cases h b _ e he with hr | ⟨_, _, _, ext, htr, hP⟩
    · have := hr.2
      rw [hv] at this
      cases this
    · intro c hc
      rw [htr] at hc
      exact hP c (by simpa using hc)

/-- C10 as stated fails: an update that renames the instance and changes
the mode of its type returns the validation error of the mode after the
rename call was issued. -/
theorem update_validation_error_after_rename :
    (resourceUCloudDBInstanceUpdate specHelpers (okBackend {} {}) ⟨renameAndModeChange, []⟩).err =
      some .updateTypeNotSupported ∧
    (resourceUCloudDBInstanceUpdate specHelpers (okBackend {} {}) ⟨renameAndModeChange, []⟩).trace =
      [.ModifyUDBInstanceName "udb-1" "db2"] := by
  refine ⟨by decide, by decide⟩

/-! ## C12: one attempt of the delete -/

theorem deleteStop_ok (b : Backend) (id : String) (db : DBInstance) (trace : List Call)
    (h : stopSucceeds b id db trace) :
    deleteStop b id db (trace ++ [.DescribeUDBInstance id]) = .ok (beforeDelete id db trace) := by
  unfold deleteStop beforeDelete
  by_cases hs : db.State ≠ "Shutoff"
  · obtain ⟨h1, h2⟩ := h hs
    simp [hs, h1, h2]
  · simp only [if_neg hs]

/-- The result and the trace of one attempt, case by case on the replies of
the remote service. -/
theorem deleteAttempt_table (b : Backend) (id : String) (trace : List Call) :
    (b.reply trace (.DescribeUDBInstance id) = Reply.notFound →
      deleteAttempt b id trace = ⟨.done, trace ++ [.DescribeUDBInstance id]⟩) ∧
    (b.reply trace (.DescribeUDBInstance id) = Reply.failed →
      deleteAttempt b id trace =
        ⟨.nonRetryable .describeFailed, trace ++ [.DescribeUDBInstance id]⟩) ∧
    (b.reply trace (.DescribeUDBInstance id) = Reply.ok →
      ((b.describe trace).State ≠ "Shutoff" →
        b.reply (trace ++ [.DescribeUDBInstance id]) (.StopUDBInstance id "") ≠ Reply.ok →
        deleteAttempt b id trace = ⟨.retryable .stopFailed,
          trace ++ [.DescribeUDBInstance id, .StopUDBInstance id ""]⟩) ∧
      ((b.describe trace).State ≠ "Shutoff" →
        b.reply (trace ++ [.DescribeUDBInstance id]) (.StopUDBInstance id "") = Reply.ok →
        b.reply (trace ++ [.DescribeUDBInstance id, .StopUDBInstance id ""])
          (.WaitForState id ["Shutoff"]) ≠ Reply.ok →
        deleteAttempt b id trace = ⟨.retryable .waitStopFailed,
          trace ++ [.DescribeUDBInstance id, .StopUDBInstance id "",
            .WaitForState id ["Shutoff"]]⟩) ∧
      (stopSucceeds b id (b.describe trace) trace →
        (b.reply (beforeDelete id (b.describe trace) trace) (.DeleteUDBInstance id) ≠ Reply.ok →
          deleteAttempt b id trace = ⟨.nonRetryable .deleteFailed,
            beforeDelete id (b.describe trace) trace ++ [.DeleteUDBInstance id]⟩) ∧
        (b.reply (beforeDelete id (b.describe trace) trace) (.DeleteUDBInstance id) = Reply.ok →
          (b.reply (beforeDelete id (b.describe trace) trace ++ [.DeleteUDBInstance id])
              (.DescribeUDBInstance id) = Reply.notFound →
            deleteAttempt b id trace = ⟨.done,
              beforeDelete id (b.describe trace) trace ++
                [.DeleteUDBInstance id, .DescribeUDBInstance id]⟩) ∧
          (b.reply (beforeDelete id (b.describe trace) trace ++ [.DeleteUDBInstance id])
              (.DescribeUDBInstance id) = Reply.failed →
            deleteAttempt b id trace = ⟨.nonRetryable .describeAfterFailed,
              beforeDelete id (b.describe trace) trace ++
                [.DeleteUDBInstance id, .DescribeUDBInstance id]⟩) ∧
          (b.reply (beforeDelete id (b.describe trace) trace ++ [.DeleteUDBInstance id])
              (.DescribeUDBInstance id) = Reply.ok →
            deleteAttempt b id trace = ⟨.retryable .stillExists,
              beforeDelete id (b.describe trace) trace ++
                [.DeleteUDBInstance id, .DescribeUDBInstance id]⟩)))) := by
  refine ⟨?_, ?_, ?_⟩
  · intro h1
    simp [deleteAttempt, h1]
  · intro h1
    simp [deleteAttempt, h1]
  · intro h1
    refine ⟨?_, ?_, ?_⟩
    · intro hs hstop
      simp [deleteAttempt, h1, deleteStop, hs, hstop]
    · intro hs hstop hwait
      simp [deleteAttempt, h1, deleteStop, hs, hstop, hwait]
    · intro hss
      have hd := deleteStop_ok b id (b.describe trace) trace hss
      refine ⟨?_, ?_⟩
      · intro hdel
        simp [deleteAttempt, h1, hd, deleteCall, hdel]
      · intro hdel
        refine ⟨?_, ?_, ?_⟩
        · intro h2
          simp [deleteAttempt, h1, hd, deleteCall, hdel, h2]
        · intro h2
          simp [deleteAttempt, h1, hd, deleteCall, hdel, h2]
        · intro h2
          simp [deleteAttempt, h1, hd, deleteCall, hdel, h2]

/-- C12: one attempt of the retried body of `resourceUCloudDBInstanceDelete`
returns success iff the first describe reports not found, or the body
reaches the delete call, the delete call succeeds and the describe after it
reports not found; in the first case the describe is the only call. The
attempt is retryable exactly after a failed stop call, a failed wait for
`Shutoff`, or when the instance still exists after a successful delete call;
it is not retryable exactly after a describe error other than not found or a
failed delete call. The stop call is issued iff the first describe succeeded
and the described state is not `Shutoff`. -/
theorem deleteAttempt_outcome (b : Backend) (id : String) (trace : List Call) :
    ((deleteAttempt b id trace).result = .done ↔
      firstDescribe b id trace = Reply.notFound ∨
      (reachesDelete b id trace ∧ deleteReply b id trace = Reply.ok ∧
        secondDescribe b id trace = Reply.notFound)) ∧
    (firstDescribe b id trace = Reply.notFound →
      (deleteAttempt b id trace).trace = trace ++ [.DescribeUDBInstance id]) ∧
    (∀ e, (deleteAttempt b id trace).result = .retryable e ↔
      (e = .stopFailed ∧ firstDescribe b id trace = Reply.ok ∧
        (b.describe trace).State ≠ "Shutoff" ∧ stopReply b id trace ≠ Reply.ok) ∨
      (e = .waitStopFailed ∧ firstDescribe b id trace = Reply.ok ∧
        (b.describe trace).State ≠ "Shutoff" ∧ stopReply b id trace = Reply.ok ∧
        waitReply b id trace ≠ Reply.ok) ∨
      (e = .stillExists ∧ reachesDelete b id trace ∧ deleteReply b id trace = Reply.ok ∧
        secondDescribe b id trace = Reply.ok)) ∧
    (∀ e, (deleteAttempt b id trace).result = .nonRetryable e ↔
      (e = .describeFailed ∧ firstDescribe b id trace = Reply.failed) ∨
      (e = .deleteFailed ∧ reachesDelete b id trace ∧ deleteReply b id trace ≠ Reply.ok) ∨
      (e = .describeAfterFailed ∧ reachesDelete b id trace ∧
        deleteReply b id trace = Reply.ok ∧ secondDescribe b id trace = Reply.failed)) ∧
    (Call.StopUDBInstance id "" ∈ (deleteAttempt b id trace).trace.drop trace.length ↔
      firstDescribe b id trace = Reply.ok ∧ (b.describe trace).State ≠ "Shutoff") := by
  obtain ⟨t1, t2, t3⟩ := deleteAttempt_table b id trace
  unfold reachesDelete firstDescribe stopReply waitReply deleteReply secondDescribe
  cases hf : b.reply trace (.DescribeUDBInstance id) with
  | notFound =>
    rw [t1 hf]
    simp
  | failed =>
    rw [t2 hf]
    simp
    exact fun e => eq_comm
  | ok =>
    obtain ⟨s1, s2, s3⟩ := t3 hf
    clear t1 t2 t3
    by_cases hs : (b.describe trace).State ≠ "Shutoff"
    · have hb : beforeDelete id (b.describe trace) trace = trace ++
          [.DescribeUDBInstance id, .StopUDBInstance id "", .WaitForState id ["Shutoff"]] := by
        simp [beforeDelete, hs]
      rw [hb] at s3 ⊢
      by_cases hstop : b.reply (trace ++ [.DescribeUDBInstance id]) (.StopUDBInstance id "")
          = Reply.ok
      · by_cases hwait : b.reply (trace ++ [.DescribeUDBInstance id, .StopUDBInstance id ""])
            (.WaitForState id ["Shutoff"]) = Reply.ok
        · obtain ⟨d1, d2⟩ := s3 (fun _ => ⟨hstop, hwait⟩)
          clear s1 s2 s3
          by_cases hdel : b.reply (trace ++ [.DescribeUDBInstance id, .StopUDBInstance id "",
              .WaitForState id ["Shutoff"]]) (.DeleteUDBInstance id) = Reply.ok
          · obtain ⟨e1, e2, e3⟩ := d2 hdel
            clear d1 d2
            cases h2 : b.reply (trace ++ [.DescribeUDBInstance id, .StopUDBInstance id "",
                .WaitForState id ["Shutoff"]] ++ [.DeleteUDBInstance id])
                (.DescribeUDBInstance id) with
            | notFound =>
              rw [e1 h2]
              simp [hs, hstop, hwait, hdel]
            | failed =>
              rw [e2 h2]
              simp [hs, hstop, hwait, hdel]
              exact fun e => eq_comm
            | ok =>
              rw [e3 h2]
              simp [hs, hstop, hwait, hdel]
              exact fun e => eq_comm
          · rw [d1 hdel]
            simp [hs, hstop, hwait, hdel]
            exact fun e => eq_comm
        · rw [s2 hs hstop hwait]
          simp [hs, hstop, hwait]
          exact fun e => eq_comm
      · rw [s1 hs hstop]
        simp [hs, hstop]
        exact fun e => eq_comm
    · have hb : beforeDelete id (b.describe trace) trace = trace ++
          [.DescribeUDBInstance id] := by
        simp [beforeDelete, hs]
      rw [hb] at s3 ⊢
      obtain ⟨d1, d2⟩ := s3 (fun hh => absurd hh hs)
      clear s1 s2 s3
      by_cases hdel : b.reply (trace ++ [.DescribeUDBInstance id])
          (.DeleteUDBInstance id) = Reply.ok
      · obtain ⟨e1, e2, e3⟩ := d2 hdel
        clear d1 d2
        cases h2 : b.reply (trace ++ [.DescribeUDBInstance id] ++
            [.DeleteUDBInstance id]) (.DescribeUDBInstance id) with
        | notFound =>
          rw [e1 h2]
          simp [hs, hdel]
        | failed =>
          rw [e2 h2]
          simp [hs, hdel]
          exact fun e => eq_comm
        | ok =>
          rw [e3 h2]
          simp [hs, hdel]
          exact fun e => eq_comm
      · rw [d1 hdel]
        simp [hs, hdel]
        exact fun e => eq_comm

/-! ## C15: the string of the parameter hash -/

theorem append_sep_inj (sep : Char) (a b c d : List Char) (ha : sep ∉ a) (hc : sep ∉ c)
    (h : a ++ sep :: b = c ++ sep :: d) : a = c ∧ b = d := by
  induction a generalizing c with
  | nil =>
    cases c with
    | nil => simpa using h
    | cons y ys =>
      simp only [List.nil_append, List.cons_append, List.cons.injEq] at h
      exact absurd (by simp [h.1]) hc
  | cons x xs ih =>
    cases c with
    | nil =>
      simp only [List.nil_append, List.cons_append, List.cons.injEq] at h
      exact absurd (by simp [h.1]) ha
    | cons y ys =>
      simp only [List.cons_append, List.cons.injEq] at h
      have hxs : sep ∉ xs := fun hm => ha (List.mem_cons_of_mem _ hm)
      have hys : sep ∉ ys := fun hm => hc (List.mem_cons_of_mem _ hm)
      obtain ⟨e1, e2⟩ := ih ys hxs hys h.2
      exact ⟨by rw [h.1, e1], e2⟩

theorem parameterHashString_data (key value : String) :
    (parameterHashString key value).data = key.data ++ '-' :: (value.data ++ ['-']) := by
  simp [parameterHashString]

/-- C15, as the code has it: the strings built for two override pairs are
equal only if the two keys are equal and the two values are equal, when the
two keys hold no "-", or the two values hold none. -/
theorem parameterHashString_injective (k1 v1 k2 v2 : String)
    (hDash : (dashFree k1 ∧ dashFree k2) ∨ (dashFree v1 ∧ dashFree v2))
    (hEq : parameterHashString k1 v1 = parameterHashString k2 v2) : k1 = k2 ∧ v1 = v2 := by
  have hd : k1.data ++ '-' :: (v1.data ++ ['-']) = k2.data ++ '-' :: (v2.data ++ ['-']) := by
    rw [← parameterHashString_data, ← parameterHashString_data, hEq]
  rcases hDash with ⟨h1, h2⟩ | ⟨h1, h2⟩
  · obtain ⟨e1, e2⟩ := append_sep_inj '-' _ _ _ _ h1 h2 hd
    have e3 : v1.data = v2.data := List.append_cancel_right e2
    exact ⟨String.ext e1, String.ext e3⟩
  · have hr := congrArg List.reverse hd
    simp only [List.reverse_append, List.reverse_cons, List.reverse_nil, List.nil_append,
      List.append_assoc, List.singleton_append, List.cons_append, List.cons.injEq,
      true_and] at hr
    have h1r : '-' ∉ v1.data.reverse := by simpa using h1
    have h2r : '-' ∉ v2.data.reverse := by simpa using h2
    obtain ⟨e1, e2⟩ := append_sep_inj '-' _ _ _ _ h1r h2r hr
    exact ⟨String.ext (List.reverse_injective e2), String.ext (List.reverse_injective e1)⟩

/-- C15 at a concrete input: two pairs with keys without "-". -/
theorem parameterHashString_injective_witness :
    "max_connections" = "max_connections" ∧ "200" = "200" :=
  parameterHashString_injective "max_connections" "200" "max_connections" "200"
    (Or.inl ⟨by unfold dashFree; decide, by unfold dashFree; decide⟩) rfl

/-- C15 as stated fails: the pairs ("a-b", "c") and ("a", "b-c") are
different and are given the same string, "a-b-c-". -/
theorem parameterHashString_collision :
    parameterHashString "a-b" "c" = parameterHashString "a" "b-c" ∧
    parameterHashString "a-b" "c" = "a-b-c-" ∧
    ("a-b", "c") ≠ ("a", "b-c") := by
  refine ⟨by decide, by decide, by decide⟩

/-! ## The trace of a handler only grows -/

theorem run_sat (N R : World → Prop) (b : Backend) (c : Call) (e : Err) (w : World)
    (hok : b.reply w.trace c = Reply.ok → N (w.issue c))
    (hfail : b.reply w.trace c ≠ Reply.ok → R (w.issue c)) : (b.run c e w).sat N R := by
  unfold Backend.run
  split
  · rename_i h
    exact hok h
  · rename_i h
    exact hfail h

theorem andThen_sat (N N2 R : World → Prop) (f : Flow) (k : World → Flow)
    (hf : f.sat N R) (hk : ∀ w, N w → (k w).sat N2 R) : (f.andThen k).sat N2 R := by
  cases f with
  | next w => exact hk w hf
  | ret e w => exact hf

theorem grownFrom_issue (trace : List Call) (w : World) (c : Call)
    (h : w.grownFrom trace) : (w.issue c).grownFrom trace := by
  obtain ⟨ext, he⟩ := h
  exact ⟨ext ++ [c], by simp [World.issue, he]⟩

theorem run_grows (trace : List Call) (b : Backend) (c : Call) (e : Err) (w : World)
    (h : w.grownFrom trace) :
    (b.run c e w).sat (World.grownFrom trace) (World.grownFrom trace) :=
  run_sat _ _ b c e w (fun _ => grownFrom_issue trace w c h) (fun _ => grownFrom_issue trace w c h)

theorem updateName_grows (trace : List Call) (b : Backend) (w : World)
    (h : w.grownFrom trace) :
    (updateName b w).sat (World.grownFrom trace) (World.grownFrom trace) := by
  unfold updateName
  split
  · exact andThen_sat _ _ _ _ _ (run_grows trace b _ _ w h) (fun w1 h1 => h1)
  · exact h

theorem updatePassword_grows (trace : List Call) (b : Backend) (w : World)
    (h : w.grownFrom trace) :
    (updatePassword b w).sat (World.grownFrom trace) (World.grownFrom trace) := by
  unfold updatePassword
  split
  · exact andThen_sat _ _ _ _ _ (run_grows trace b _ _ w h) (fun w1 h1 => h1)
  · exact h

theorem resizeStop_grows (trace : List Call) (b : Backend) (db : DBInstance) (w : World)
    (h : w.grownFrom trace) :
    (resizeStop b db w).sat (World.grownFrom trace) (World.grownFrom trace) := by
  unfold resizeStop
  split
  · exact andThen_sat _ _ _ _ _ (run_grows trace b _ _ w h)
      (fun w1 h1 => run_grows trace b _ _ w1 h1)
  · exact h

theorem resizeStart_grows (trace : List Call) (b : Backend) (db : DBInstance) (w : World)
    (h : w.grownFrom trace) :
    (resizeStart b db w).sat (World.grownFrom trace) (World.grownFrom trace) := by
  unfold resizeStart
  split
  · exact andThen_sat _ _ _ _ _ (run_grows trace b _ _ w h)
      (fun w1 h1 => run_grows trace b _ _ w1 h1)
  · exact h

theorem resizeFlow_grows (trace : List Call) (b : Backend) (sizeReq : ResizeUDBInstanceRequest)
    (w : World) (h : w.grownFrom trace) :
    (resizeFlow b sizeReq w).sat (World.grownFrom trace) (World.grownFrom trace) := by
  have h1 : (w.issue (.DescribeUDBInstance w.d.id)).grownFrom trace :=
    grownFrom_issue trace w _ h
  unfold resizeFlow
  simp only
  split
  · exact h1
  · exact h1
  · split
    · refine andThen_sat _ _ _ _ _ (resizeStop_grows trace b _ _ h1) (fun w2 h2 => ?_)
      refine andThen_sat _ _ _ _ _ (run_grows trace b _ _ w2 h2) (fun w3 h3 => ?_)
      refine andThen_sat _ _ _ _ _ (run_grows trace b _ _ w3 h3) (fun w4 h4 => ?_)
      exact resizeStart_grows trace b _ _ h4
    · refine andThen_sat _ _ _ _ _ (run_grows trace b _ _ _ h1) (fun w3 h3 => ?_)
      exact andThen_sat _ _ _ _ _ (run_grows trace b _ _ w3 h3) (fun w4 h4 => h4)

theorem updateSize_grows (trace : List Call) (h : Helpers) (b : Backend) (w : World)
    (hw : w.grownFrom trace) :
    (updateSize h b w).sat (World.grownFrom trace) (World.grownFrom trace) := by
  unfold updateSize
  split
  · exact hw
  · split
    · exact resizeFlow_grows trace b _ w hw
    · exact hw

theorem updateParameterGroup_grows (trace : List Call) (b : Backend) (w : World)
    (h : w.grownFrom trace) :
    (updateParameterGroup b w).sat (World.grownFrom trace) (World.grownFrom trace) := by
  unfold updateParameterGroup
  split
  · refine andThen_sat _ _ _ _ _ (run_grows trace b _ _ w h) (fun w1 h1 => ?_)
    refine andThen_sat _ _ _ _ _ (run_grows trace b _ _ w1 h1) (fun w2 h2 => ?_)
    exact andThen_sat _ _ _ _ _ (run_grows trace b _ _ w2 h2) (fun w3 h3 => h3)
  · exact h

theorem updateBackupStrategy_grows (trace : List Call) (b : Backend) (w : World)
    (h : w.grownFrom trace) :
    (updateBackupStrategy b w).sat (World.grownFrom trace) (World.grownFrom trace) := by
  unfold updateBackupStrategy
  simp only
  split
  · exact andThen_sat _ _ _ _ _ (run_grows trace b _ _ w h) (fun w1 h1 => h1)
  · exact h

theorem updateBlackList_grows (trace : List Call) (b : Backend) (w : World)
    (h : w.grownFrom trace) :
    (updateBlackList b w).sat (World.grownFrom trace) (World.grownFrom trace) := by
  unfold updateBlackList
  split
  · exact andThen_sat _ _ _ _ _ (run_grows trace b _ _ w h) (fun w1 h1 => h1)
  · exact h

theorem updateBody_grows (trace : List Call) (h : Helpers) (b : Backend) (w : World)
    (hw : w.grownFrom trace) :
    (updateBody h b w).sat (World.grownFrom trace) (World.grownFrom trace) := by
  unfold updateBody
  refine andThen_sat _ _ _ _ _ (updateName_grows trace b _ hw) (fun w1 h1 => ?_)
  refine andThen_sat _ _ _ _ _ (updatePassword_grows trace b _ h1) (fun w2 h2 => ?_)
  refine andThen_sat _ _ _ _ _ (updateSize_grows trace h b _ h2) (fun w3 h3 => ?_)
  refine andThen_sat _ _ _ _ _ (updateParameterGroup_grows trace b _ h3) (fun w4 h4 => ?_)
  refine andThen_sat _ _ _ _ _ (updateBackupStrategy_grows trace b _ h4) (fun w5 h5 => ?_)
  exact updateBlackList_grows trace b _ h5

/-- The trace of an update starts with the trace it was entered with. -/
theorem update_grows (h : Helpers) (b : Backend) (w : World) :
    ∃ ext, (resourceUCloudDBInstanceUpdate h b w).trace = w.trace ++ ext := by
  unfold resourceUCloudDBInstanceUpdate
  have hb := updateBody_grows w.trace h b w ⟨[], by simp⟩
  cases hf : updateBody h b w with
  | next w1 =>
    rw [hf] at hb
    obtain ⟨ext, he⟩ := hb
    refine ⟨ext ++ [.DescribeUDBInstance w1.d.id], ?_⟩
    simp only [Flow.finish, read_trace, he, List.append_assoc]
  | ret e w1 =>
    rw [hf] at hb
    exact hb

/-! ## C14: the port of the create request -/

/-- What a request that `buildCreateRequest` returns carries for the port,
the memory limit and the instance mode. -/
theorem buildCreateRequest_ok (h : Helpers) (d : ResourceData) (req : CreateUDBInstanceRequest)
    (hReq : buildCreateRequest h d = .ok req) :
    req.Port = createPort d.engine d.port ∧
    req.MemoryLimit = wrapInt ((h.parseDBInstanceType d.instance_type).Memory * 1000) ∧
    h.mustConvert (h.parseDBInstanceType d.instance_type).Typ = some req.InstanceMode := by
  unfold buildCreateRequest at hReq
  simp only at hReq
  split at hReq
  · cases hReq
  · split at hReq
    · cases hReq
    · split at hReq
      · cases hReq
      · rename_i mode hmode
        split at hReq
        · cases hReq
        · split at hReq
          · cases hReq
          · split at hReq
            · cases hReq
            · cases hReq
              exact ⟨rfl, rfl, hmode⟩

/-- The first call of a create whose request was built is `CreateUDBInstance`
with that request. -/
theorem create_first_call (h : Helpers) (b : Backend) (d : ResourceData)
    (req : CreateUDBInstanceRequest) (hReq : buildCreateRequest h d = .ok req) :
    (resourceUCloudDBInstanceCreate h b ⟨d, []⟩).trace.head? =
      some (.CreateUDBInstance req) := by
  unfold resourceUCloudDBInstanceCreate
  simp only [hReq]
  unfold createRemote
  simp only
  split
  · unfold Backend.run
    split
    · simp only [Flow.finish]
      obtain ⟨ext, he⟩ := update_grows h b
        (World.issue ⟨{ d with id := b.createDBId [] }, [] ++ [.CreateUDBInstance req]⟩
          (.WaitForState (b.createDBId []) ["Running"]))
      rw [he]
      rfl
    · rfl
  · rfl

/-- C14: when the request of a create is built, it is the request of the
first call the create issues, `CreateUDBInstance`, and it carries: with no
port configured, port 3306 when the engine is mysql or percona and port 5432
when the engine is postgresql; with a port configured, that port. -/
theorem create_request_port (h : Helpers) (b : Backend) (d : ResourceData)
    (req : CreateUDBInstanceRequest) (hReq : buildCreateRequest h d = .ok req) :
    (resourceUCloudDBInstanceCreate h b ⟨d, []⟩).trace.head? =
      some (.CreateUDBInstance req) ∧
    (d.port = 0 → d.engine = "mysql" ∨ d.engine = "percona" → req.Port = some 3306) ∧
    (d.port = 0 → d.engine = "postgresql" → req.Port = some 5432) ∧
    (d.port ≠ 0 → req.Port = some d.port) := by
  obtain ⟨hp, _, _⟩ := buildCreateRequest_ok h d req hReq
  refine ⟨create_first_call h b d req hReq, ?_, ?_, ?_⟩
  · intro h0 he
    rw [hp]
    unfold createPort
    rcases he with he | he <;> simp [h0, he]
  · intro h0 he
    rw [hp]
    unfold createPort
    simp [h0, he]
  · intro h0
    rw [hp]
    unfold createPort
    simp [h0]

/-- C14 at a concrete input: a mysql create with no port configured. -/
theorem create_request_port_witness :
    (resourceUCloudDBInstanceCreate specHelpers (okBackend {} {}) ⟨tier8Storage600, []⟩).trace.head?
      = some (.CreateUDBInstance tier8Request) ∧
    (tier8Storage600.port = 0 →
      tier8Storage600.engine = "mysql" ∨ tier8Storage600.engine = "percona" →
      tier8Request.Port = some 3306) ∧
    (tier8Storage600.port = 0 → tier8Storage600.engine = "postgresql" →
      tier8Request.Port = some 5432) ∧
    (tier8Storage600.port ≠ 0 → tier8Request.Port = some tier8Storage600.port) :=
  create_request_port specHelpers (okBackend {} {}) tier8Storage600 tier8Request rfl

/-! ## C13: the instance type read back -/

theorem wrapInt_of_range (x : Int) (h0 : 0 ≤ x) (h1 : x < 2 ^ 63) : wrapInt x = x := by
  unfold wrapInt
  have : (x + 2 ^ 63) % 2 ^ 64 = x + 2 ^ 63 := by
    apply Int.emod_eq_of_lt <;> omega
  omega

/-- C13, as the code has it: let the instance type of a create be
x = engine-mode-m with the memory tier m in plain decimal, 0 ≤ m and
m * 1000 within the range of a 64-bit `int`, let the create build its
request, and let the mode table map the mode sent back to `mode`. If the
service reports the `MemoryLimit` and the `InstanceMode` of the request and
a `DBTypeId` whose first component is the engine, the read returns no error
and sets `instance_type` to exactly x. -/
theorem read_instance_type_roundtrip (h : Helpers) (b : Backend) (d : ResourceData)
    (req : CreateUDBInstanceRequest) (w : World) (engine mode : String) (m : Int)
    (hForm : d.instance_type = engine ++ "-" ++ mode ++ "-" ++ toString m)
    (hParse : h.parseDBInstanceType d.instance_type =
      { Engine := engine, Typ := mode, Memory := m })
    (hLow : 0 ≤ m) (hHigh : m * 1000 < 2 ^ 63)
    (hReq : buildCreateRequest h d = .ok req)
    (hBack : h.mustUnconvert req.InstanceMode = some mode)
    (hReply : b.reply w.trace (.DescribeUDBInstance w.d.id) = Reply.ok)
    (hMemory : (b.describe w.trace).MemoryLimit = req.MemoryLimit)
    (hMode : (b.describe w.trace).InstanceMode = req.InstanceMode)
    (hType : ∃ version rest,
      stringsSplit (b.describe w.trace).DBTypeId '-' = engine :: version :: rest) :
    (resourceUCloudDBInstanceRead h b w).err = none ∧
    (resourceUCloudDBInstanceRead h b w).d.instance_type = d.instance_type := by
  obtain ⟨_, hml, _⟩ := buildCreateRequest_ok h d req hReq
  obtain ⟨version, rest, hsplit⟩ := hType
  have hmem : Int.tdiv (b.describe w.trace).MemoryLimit 1000 = m := by
    rw [hMemory, hml, hParse]
    simp only
    rw [wrapInt_of_range (m * 1000) (by omega) hHigh]
    exact Int.mul_tdiv_cancel m (by decide)
  have hun : h.mustUnconvert (b.describe w.trace).InstanceMode = some mode := by
    rw [hMode, hBack]
  unfold resourceUCloudDBInstanceRead
  simp only [hReply, hsplit, hun, hmem, hForm, and_self]

/-- C13 at a concrete input: the instance type "mysql-ha-8". -/
theorem read_instance_type_roundtrip_witness :
    (resourceUCloudDBInstanceRead specHelpers (okBackend tier8Instance {})
      ⟨tier8Storage600, []⟩).err = none ∧
    (resourceUCloudDBInstanceRead specHelpers (okBackend tier8Instance {})
      ⟨tier8Storage600, []⟩).d.instance_type = tier8Storage600.instance_type :=
  read_instance_type_roundtrip specHelpers (okBackend tier8Instance {}) tier8Storage600
    tier8Request ⟨tier8Storage600, []⟩ "mysql" "ha" 8 (by decide) (by decide) (by decide)
    (by decide) rfl (by decide) rfl rfl rfl ⟨"5.7", [], by decide⟩

/-- C13 as stated fails: for the well-formed instance type
"mysql-ha-9223372036854776" the create sends the memory limit
9223372036854776 * 1000 wrapped to 64 bits, and with that memory limit, the
mode sent and the type "mysql-5.7" reported back, the read sets
`instance_type` to "mysql-ha--9223372036854775". -/
theorem read_instance_type_overflow :
    (specHelpers.parseDBInstanceType hugeTier.instance_type).Memory = 9223372036854776 ∧
    ((buildCreateRequest specHelpers hugeTier).toOption.map fun r =>
      (r.MemoryLimit, r.InstanceMode)) =
      some (hugeTierInstance.MemoryLimit, hugeTierInstance.InstanceMode) ∧
    (resourceUCloudDBInstanceRead specHelpers (okBackend hugeTierInstance {})
      ⟨hugeTier, []⟩).d.instance_type = "mysql-ha--9223372036854775" ∧
    (resourceUCloudDBInstanceRead specHelpers (okBackend hugeTierInstance {})
      ⟨hugeTier, []⟩).d.instance_type ≠ hugeTier.instance_type := by
  refine ⟨by decide, by decide, by decide, by decide⟩

/-! ## C11: the attributes recorded as applied -/

theorem tracked_issue (b : Backend) (p0 : List String) (pend : Pending) (w : World) (c : Call)
    (h : w.tracked b p0 pend) :
    recordFold b p0 (w.issue c).trace =
      recordStep b { seen := w.trace, pending := pend, keys := w.d.partialKeys } c := by
  unfold World.tracked at h
  unfold recordFold at h ⊢
  simp only [World.issue, List.foldl_append, List.foldl_cons, List.foldl_nil]
  rw [h]

theorem run_exact (R : World → Prop) (b : Backend) (c : Call) (e : Err) (w : World)
    (hfail : b.reply w.trace c ≠ Reply.ok → R (w.issue c)) :
    (b.run c e w).sat (fun w1 => w1 = w.issue c ∧ b.reply w.trace c = Reply.ok) R :=
  run_sat _ _ b c e w (fun h => ⟨rfl, h⟩) hfail

theorem tracked_describe (b : Backend) (p0 : List String) (pend : Pending) (w : World)
    (i : String) (h : w.tracked b p0 pend) :
    (w.issue (.DescribeUDBInstance i)).tracked b p0 .none := by
  unfold World.tracked
  rw [tracked_issue b p0 pend w _ h]
  rfl

theorem tracked_stop (b : Backend) (p0 : List String) (pend : Pending) (w : World)
    (i z : String) (h : w.tracked b p0 pend) :
    (w.issue (.StopUDBInstance i z)).tracked b p0 .none := by
  unfold World.tracked
  rw [tracked_issue b p0 pend w _ h]
  rfl

theorem tracked_start (b : Backend) (p0 : List String) (pend : Pending) (w : World)
    (i z : String) (h : w.tracked b p0 pend) :
    (w.issue (.StartUDBInstance i z)).tracked b p0 .none := by
  unfold World.tracked
  rw [tracked_issue b p0 pend w _ h]
  rfl

theorem tracked_wait_idle (b : Backend) (p0 : List String) (w : World)
    (i : String) (t : List String) (h : w.tracked b p0 .none) :
    (w.issue (.WaitForState i t)).tracked b p0 .none := by
  unfold World.tracked
  rw [tracked_issue b p0 .none w _ h]
  simp [recordStep, World.issue]

theorem tracked_fail (b : Backend) (p0 : List String) (pend : Pending) (w : World) (c : Call)
    (h : w.tracked b p0 pend) (hr : b.reply w.trace c ≠ Reply.ok) :
    (w.issue c).tracked b p0 .none := by
  unfold World.tracked
  rw [tracked_issue b p0 pend w _ h]
  cases c <;> simp [recordStep, World.issue, hr]

theorem settled_of_tracked (b : Backend) (p0 : List String) (pend : Pending) (w : World)
    (h : w.tracked b p0 pend) : w.settled b p0 := ⟨pend, h⟩

theorem updateName_settled (b : Backend) (p0 : List String) (w : World)
    (h : w.settled b p0) :
    (updateName b w).sat (World.settled b p0) (World.settled b p0) := by
  obtain ⟨pend, ht⟩ := h
  unfold updateName
  split
  · refine andThen_sat _ _ _ _ _
      (run_exact _ b _ _ w (fun hr => ⟨_, tracked_fail b p0 pend w _ ht hr⟩)) ?_
    rintro w1 ⟨rfl, hr⟩
    refine ⟨.none, ?_⟩
    unfold World.tracked
    simp only
    rw [tracked_issue b p0 pend w _ ht]
    simp [recordStep, World.issue, hr, ResourceData.SetPartial]
  · exact ⟨pend, ht⟩

theorem updatePassword_settled (b : Backend) (p0 : List String) (w : World)
    (h : w.settled b p0) :
    (updatePassword b w).sat (World.settled b p0) (World.settled b p0) := by
  obtain ⟨pend, ht⟩ := h
  unfold updatePassword
  split
  · refine andThen_sat _ _ _ _ _
      (run_exact _ b _ _ w (fun hr => ⟨_, tracked_fail b p0 pend w _ ht hr⟩)) ?_
    rintro w1 ⟨rfl, hr⟩
    refine ⟨.none, ?_⟩
    unfold World.tracked
    simp only
    rw [tracked_issue b p0 pend w _ ht]
    simp [recordStep, World.issue, hr, ResourceData.SetPartial]
  · exact ⟨pend, ht⟩

theorem updateBackupStrategy_settled (b : Backend) (p0 : List String) (w : World)
    (h : w.settled b p0) :
    (updateBackupStrategy b w).sat (World.settled b p0) (World.settled b p0) := by
  obtain ⟨pend, ht⟩ := h
  unfold updateBackupStrategy
  simp only
  split
  · refine andThen_sat _ _ _ _ _
      (run_exact _ b _ _ w (fun hr => ⟨_, tracked_fail b p0 pend w _ ht hr⟩)) ?_
    rintro w1 ⟨rfl, hr⟩
    refine ⟨.none, ?_⟩
    unfold World.tracked
    simp only
    rw [tracked_issue b p0 pend w _ ht]
    simp [recordStep, World.issue, hr, ResourceData.SetPartial]
  · exact ⟨pend, ht⟩

theorem updateBlackList_settled (b : Backend) (p0 : List String) (w : World)
    (h : w.settled b p0) :
    (updateBlackList b w).sat (World.settled b p0) (World.settled b p0) := by
  obtain ⟨pend, ht⟩ := h
  unfold updateBlackList
  split
  · refine andThen_sat _ _ _ _ _
      (run_exact _ b _ _ w (fun hr => ⟨_, tracked_fail b p0 pend w _ ht hr⟩)) ?_
    rintro w1 ⟨rfl, hr⟩
    refine ⟨.none, ?_⟩
    unfold World.tracked
    simp only
    rw [tracked_issue b p0 pend w _ ht]
    simp [recordStep, World.issue, hr, ResourceData.SetPartial]
  · exact ⟨pend, ht⟩

theorem resizeStop_tracked (b : Backend) (p0 : List String) (db : DBInstance) (w : World)
    (h : w.tracked b p0 .none) :
    (resizeStop b db w).sat (World.tracked b p0 .none) (World.settled b p0) := by
  unfold resizeStop
  split
  · refine andThen_sat _ _ _ _ _
      (run_exact _ b _ _ w (fun hr => ⟨_, tracked_fail b p0 .none w _ h hr⟩)) ?_
    rintro w1 ⟨rfl, _⟩
    have h1 := tracked_stop b p0 .none w w.d.id w.d.availability_zone h
    exact run_sat _ _ b _ _ _ (fun _ => tracked_wait_idle b p0 _ _ _ h1)
      (fun hr => ⟨_, tracked_fail b p0 .none _ _ h1 hr⟩)
  · exact h

theorem resizeStart_settled (b : Backend) (p0 : List String) (db : DBInstance) (w : World)
    (h : w.tracked b p0 .none) :
    (resizeStart b db w).sat (World.settled b p0) (World.settled b p0) := by
  unfold resizeStart
  split
  · refine andThen_sat _ _ _ _ _
      (run_exact _ b _ _ w (fun hr => ⟨_, tracked_fail b p0 .none w _ h hr⟩)) ?_
    rintro w1 ⟨rfl, _⟩
    have h1 := tracked_start b p0 .none w w.d.id w.d.availability_zone h
    exact run_sat _ _ b _ _ _ (fun _ => ⟨_, tracked_wait_idle b p0 _ _ _ h1⟩)
      (fun hr => ⟨_, tracked_fail b p0 .none _ _ h1 hr⟩)
  · exact ⟨_, h⟩

theorem tracked_resize_ok (b : Backend) (p0 : List String) (pend : Pending) (w : World)
    (req : ResizeUDBInstanceRequest) (h : w.tracked b p0 pend)
    (hr : b.reply w.trace (.ResizeUDBInstance req) = Reply.ok) :
    (w.issue (.ResizeUDBInstance req)).tracked b p0 .resized := by
  unfold World.tracked
  rw [tracked_issue b p0 pend w _ h]
  simp [recordStep, World.issue, hr]

theorem tracked_resize_recorded (b : Backend) (p0 : List String) (w : World)
    (i : String) (t : List String) (h : w.tracked b p0 .resized)
    (hr : b.reply w.trace (.WaitForState i t) = Reply.ok) :
    (resizeRecorded (w.issue (.WaitForState i t))).tracked b p0 .none := by
  unfold World.tracked
  have h1 := tracked_issue b p0 .resized w (.WaitForState i t) h
  have h2 : (resizeRecorded (w.issue (.WaitForState i t))).trace =
      (w.issue (.WaitForState i t)).trace := rfl
  rw [h2, h1]
  simp [recordStep, World.issue, hr, resizeRecorded, ResourceData.SetPartial]

/-- The resize and the wait after it, with the two attributes recorded when
both succeed. -/
theorem resizeCore_tracked (b : Backend) (p0 : List String) (sizeReq : ResizeUDBInstanceRequest)
    (t : List String) (e1 e2 : Err) (w : World) (h : w.tracked b p0 .none) :
    ((b.run (.ResizeUDBInstance sizeReq) e1 w).andThen fun w3 =>
      (b.run (.WaitForState w3.d.id t) e2 w3).andThen fun w4 =>
      .next (resizeRecorded w4)).sat (World.tracked b p0 .none) (World.settled b p0) := by
  refine andThen_sat _ _ _ _ _
    (run_exact _ b _ _ w (fun hr => ⟨_, tracked_fail b p0 .none w _ h hr⟩)) ?_
  rintro w3 ⟨rfl, hr⟩
  have h3 := tracked_resize_ok b p0 .none w sizeReq h hr
  refine andThen_sat _ _ _ _ _
    (run_exact _ b _ _ _ (fun hr2 => ⟨_, tracked_fail b p0 .resized _ _ h3 hr2⟩)) ?_
  rintro w4 ⟨rfl, hr2⟩
  exact tracked_resize_recorded b p0 _ _ _ h3 hr2

theorem resizeFlow_settled (b : Backend) (p0 : List String) (sizeReq : ResizeUDBInstanceRequest)
    (w : World) (h : w.settled b p0) :
    (resizeFlow b sizeReq w).sat (World.settled b p0) (World.settled b p0) := by
  obtain ⟨pend, ht⟩ := h
  have h1 := tracked_describe b p0 pend w w.d.id ht
  unfold resizeFlow
  simp only
  split
  · exact ⟨.none, h1⟩
  · exact ⟨.none, h1⟩
  · split
    · refine andThen_sat _ _ _ _ _ (resizeStop_tracked b p0 _ _ h1) (fun w2 h2 => ?_)
      have hc := resizeCore_tracked b p0 sizeReq ["Shutoff"]
        (.updateCallFailed "ResizeUDBInstance") (.updateWaitFailed "resize") w2 h2
      cases hf : b.run (.ResizeUDBInstance sizeReq) (.updateCallFailed "ResizeUDBInstance") w2 with
      | ret e w3 =>
        rw [hf] at hc
        exact hc
      | next w3 =>
        rw [hf] at hc
        simp only [Flow.andThen] at hc ⊢
        cases hg : b.run (.WaitForState w3.d.id ["Shutoff"]) (.updateWaitFailed "resize") w3 with
        | ret e w4 =>
          rw [hg] at hc
          exact hc
        | next w4 =>
          rw [hg] at hc
          simp only [Flow.sat] at hc
          exact resizeStart_settled b p0 _ _ hc
    · have hc := resizeCore_tracked b p0 sizeReq ["Running", "Shutoff"]
        (.updateCallFailed "ResizeUDBInstance") (.updateWaitFailed "resize") _ h1
      cases hf : (b.run (.ResizeUDBInstance sizeReq) (.updateCallFailed "ResizeUDBInstance")
          (w.issue (.DescribeUDBInstance w.d.id))).andThen fun w3 =>
          (b.run (.WaitForState w3.d.id ["Running", "Shutoff"]) (.updateWaitFailed "resize")
            w3).andThen fun w4 => .next (resizeRecorded w4) with
      | ret e w3 =>
        rw [hf] at hc
        exact hc
      | next w3 =>
        rw [hf] at hc
        exact ⟨_, hc⟩

theorem updateSize_settled (h : Helpers) (b : Backend) (p0 : List String) (w : World)
    (hw : w.settled b p0) :
    (updateSize h b w).sat (World.settled b p0) (World.settled b p0) := by
  unfold updateSize
  split
  · exact hw
  · split
    · exact resizeFlow_settled b p0 _ w hw
    · exact hw

theorem tracked_group_changed (b : Backend) (p0 : List String) (pend : Pending) (w : World)
    (i g : String) (h : w.tracked b p0 pend)
    (hr : b.reply w.trace (.ChangeUDBParamGroup i g) = Reply.ok) :
    (w.issue (.ChangeUDBParamGroup i g)).tracked b p0 .groupChanged := by
  unfold World.tracked
  rw [tracked_issue b p0 pend w _ h]
  simp [recordStep, World.issue, hr]

theorem tracked_group_restarted (b : Backend) (p0 : List String) (w : World)
    (i : String) (h : w.tracked b p0 .groupChanged)
    (hr : b.reply w.trace (.RestartUDBInstance i) = Reply.ok) :
    (w.issue (.RestartUDBInstance i)).tracked b p0 .groupRestarted := by
  unfold World.tracked
  rw [tracked_issue b p0 _ w _ h]
  simp [recordStep, World.issue, hr]

theorem tracked_group_recorded (b : Backend) (p0 : List String) (w : World)
    (i : String) (t : List String) (h : w.tracked b p0 .groupRestarted)
    (hr : b.reply w.trace (.WaitForState i t) = Reply.ok) :
    World.tracked b p0 .none
      { d := (w.issue (.WaitForState i t)).d.SetPartial "parameter_group_id"
        trace := (w.issue (.WaitForState i t)).trace } := by
  unfold World.tracked
  simp only
  rw [tracked_issue b p0 _ w _ h]
  simp [recordStep, World.issue, hr, ResourceData.SetPartial]

theorem updateParameterGroup_settled (b : Backend) (p0 : List String) (w : World)
    (h : w.settled b p0) :
    (updateParameterGroup b w).sat (World.settled b p0) (World.settled b p0) := by
  obtain ⟨pend, ht⟩ := h
  unfold updateParameterGroup
  split
  · refine andThen_sat _ _ _ _ _
      (run_exact _ b _ _ w (fun hr => ⟨_, tracked_fail b p0 pend w _ ht hr⟩)) ?_
    rintro w1 ⟨rfl, hr1⟩
    have h1 := tracked_group_changed b p0 pend w _ _ ht hr1
    refine andThen_sat _ _ _ _ _
      (run_exact _ b _ _ _ (fun hr => ⟨_, tracked_fail b p0 _ _ _ h1 hr⟩)) ?_
    rintro w2 ⟨rfl, hr2⟩
    have h2 := tracked_group_restarted b p0 _ _ h1 hr2
    refine andThen_sat _ _ _ _ _
      (run_exact _ b _ _ _ (fun hr => ⟨_, tracked_fail b p0 _ _ _ h2 hr⟩)) ?_
    rintro w3 ⟨rfl, hr3⟩
    exact ⟨.none, tracked_group_recorded b p0 _ _ _ h2 hr3⟩
  · exact ⟨pend, ht⟩

theorem updateBody_settled (h : Helpers) (b : Backend) (p0 : List String) (w : World)
    (hw : w.settled b p0) :
    (updateBody h b w).sat (World.settled b p0) (World.settled b p0) := by
  unfold updateBody
  have h0 : World.settled b p0 { w with d := { w.d with partialOn := true } } := hw
  refine andThen_sat _ _ _ _ _ (updateName_settled b p0 _ h0) (fun w1 h1 => ?_)
  refine andThen_sat _ _ _ _ _ (updatePassword_settled b p0 _ h1) (fun w2 h2 => ?_)
  refine andThen_sat _ _ _ _ _ (updateSize_settled h b p0 _ h2) (fun w3 h3 => ?_)
  refine andThen_sat _ _ _ _ _ (updateParameterGroup_settled b p0 _ h3) (fun w4 h4 => ?_)
  refine andThen_sat _ _ _ _ _ (updateBackupStrategy_settled b p0 _ h4) (fun w5 h5 => ?_)
  exact updateBlackList_settled b p0 _ h5

theorem read_partialKeys (h : Helpers) (b : Backend) (w : World) :
    (resourceUCloudDBInstanceRead h b w).d.partialKeys = w.d.partialKeys := by
  unfold resourceUCloudDBInstanceRead
  simp only
  split
  · rfl
  · rfl
  · split
    · split <;> rfl
    · rfl

/-- C11, as the code has it: for every run of
`resourceUCloudDBInstanceUpdate`, whether it ends in an error or not, the
attributes recorded as applied are those recorded before, followed by the
attributes that the trace of the run shows as applied, in the order of the
trace: "name" and "password" iff the rename and the password call returned
success; "instance_storage" and "instance_type", both, iff the resize call
and the wait after it returned success; "parameter_group_id" iff the change
call, the restart and the wait after it returned success; "backup_date" and
"backup_begin_time", both, iff the backup strategy call returned success;
"backup_black_list" iff the blacklist call returned success. -/
theorem update_records_applied (h : Helpers) (b : Backend) (d : ResourceData) :
    (resourceUCloudDBInstanceUpdate h b ⟨d, []⟩).d.partialKeys =
      recordedKeys b d.partialKeys (resourceUCloudDBInstanceUpdate h b ⟨d, []⟩).trace := by
  have hb := updateBody_settled h b d.partialKeys ⟨d, []⟩ ⟨.none, rfl⟩
  unfold resourceUCloudDBInstanceUpdate
  cases hf : updateBody h b ⟨d, []⟩ with
  | next w1 =>
    rw [hf] at hb
    obtain ⟨pend, ht⟩ := hb
    simp only [Flow.finish, read_partialKeys, read_trace, recordedKeys]
    have hi := tracked_describe b d.partialKeys pend w1 w1.d.id ht
    unfold World.tracked at hi
    simp only [World.issue] at hi
    rw [hi]
  | ret e w1 =>
    rw [hf] at hb
    obtain ⟨pend, ht⟩ := hb
    simp only [Flow.finish, recordedKeys]
    unfold World.tracked at ht
    rw [ht]

/-- C11 as stated fails: on an instance of remote mode "HA" whose storage
size changed, the resize call returns success and the wait after it fails;
the update ends in the error of the wait and no attribute is recorded. -/
theorem update_resize_ok_not_recorded :
    (resourceUCloudDBInstanceUpdate specHelpers (waitFailsBackend tier8Instance)
      ⟨storageChange, []⟩).err = some (.updateWaitFailed "resize") ∧
    (resourceUCloudDBInstanceUpdate specHelpers (waitFailsBackend tier8Instance)
      ⟨storageChange, []⟩).trace =
      [ .DescribeUDBInstance "udb-1",
        .ResizeUDBInstance { DBId := "udb-1", MemoryLimit := none, DiskSpace := some 200 },
        .WaitForState "udb-1" ["Running", "Shutoff"] ] ∧
    (waitFailsBackend tier8Instance).reply [.DescribeUDBInstance "udb-1"]
      (.ResizeUDBInstance { DBId := "udb-1", MemoryLimit := none, DiskSpace := some 200 })
      = Reply.ok ∧
    (resourceUCloudDBInstanceUpdate specHelpers (waitFailsBackend tier8Instance)
      ⟨storageChange, []⟩).d.partialKeys = [] := by
  refine ⟨by decide, by decide, by decide, by decide⟩

end UCloud
